import Mathlib

/-
Verification of the prompt-generation utility `questions.py`.

The module consists of: a cyclic-index helper `get_cyclic_index`, a
module-level computation of `BASE_URL` from the `GITHUB_RUN_NUMBER`
environment string, a static list `scope_files` of in-scope file paths,
and four pure prompt-builder functions (`question_generator`,
`validation_format`, `audit_format`, `scan_format`) that interpolate
their single string argument into fixed template text.

Python f-string templates are embedded as the concatenation of their
literal segments (split into chunks of at most 700 characters so that
concrete facts can be established chunk by chunk) with the interpolated
argument in between, exactly at the interpolation points of the source.
Python `%` on integers with a positive modulus agrees with `Int.emod`
(both give the non-negative remainder), and `int(...)` parsing is
modelled by `pythonInt`.  A raised `ValueError` from `int(...)` is
modelled by `Option.none` propagating out of the computation.
-/

set_option maxRecDepth 40000

namespace Questions

/-- Source constant `MAX_REPO = 30` (questions.py line 6). -/
def MAX_REPO : Int := 30

/-- Source constant `SOURCE_REPO = "AElfProject/AElf"` (line 7). -/
def SOURCE_REPO : String := "AElfProject/AElf"

/-- Source constant `REPO_NAME = "aelf"` (line 8). -/
def REPO_NAME : String := "aelf"

/-- `get_cyclic_index(run_number, max_index)` from questions.py lines 12-14:
`return (int(run_number) - 1) % max_index + 1`.  This is that function on the
integer obtained from its first argument (`int` is the identity on integers);
Python `%` with a positive modulus is `Int.emod`. -/
def get_cyclic_index (run_number : Int) (max_index : Int) : Int :=
(run_number - 1) % max_index + 1

/-- Python `str.strip()` on a character list: whitespace dropped from both ends. -/
def pyStrip (l : List Char) : List Char :=
((l.dropWhile Char.isWhitespace).reverse.dropWhile Char.isWhitespace).reverse

/-- Value of a list of decimal digit characters, most significant first. -/
def digitsToNat (l : List Char) : Nat :=
l.foldl (fun a c => 10 * a + (c.toNat - 48)) 0

/-- Model of Python's built-in `int(s)` on strings, as the source applies it to
the `GITHUB_RUN_NUMBER` value: an optional sign followed by one or more
decimal digits, surrounding whitespace stripped; any other shape raises
`ValueError`, modelled as `none`.  (Underscore digit separators and non-ASCII
digits, which Python also accepts, occur in no input considered here and are
modelled as invalid.) -/
def pythonInt (s : String) : Option Int :=
match pyStrip s.data with
| [] => none
| '+' :: ds => if ds ≠ [] ∧ ds.all Char.isDigit then some (digitsToNat ds) else none
| '-' :: ds => if ds ≠ [] ∧ ds.all Char.isDigit then some (-(digitsToNat ds : Int)) else none
| ds => if ds.all Char.isDigit then some (digitsToNat ds) else none

/-- The f-string format `f"{run_index:03d}"` (line 23) for the non-negative
values it is applied to: decimal digits left-padded with `0` to width 3. -/
def format03 (n : Int) : String :=
let s := toString n
if s.length < 3 then String.mk (List.replicate (3 - s.length) '0') ++ s else s

/-- The module-level `BASE_URL` computation of questions.py lines 17-24, as a
function of the `GITHUB_RUN_NUMBER` string (default `"0"`): if the string
equals `"0"`, the canonical URL `https://deepwiki.com/` + `SOURCE_REPO`;
otherwise the rotating URL `https://deepwiki.com/grass-dev-pa/` + `REPO_NAME`
+ `-` + `repo_number`, where `repo_number` zero-pads
`get_cyclic_index(run_number, MAX_REPO)` to three digits.  The `int()` call
inside `get_cyclic_index` raises `ValueError` on a non-integer string,
modelled as `none`. -/
def resolveBaseUrl (run_number : String) : Option String :=
if run_number = "0" then
  some ("https://deepwiki.com/" ++ SOURCE_REPO)
else
  (pythonInt run_number).map (fun n =>
    "https://deepwiki.com/grass-dev-pa/" ++ REPO_NAME ++ "-" ++
      format03 (get_cyclic_index n MAX_REPO))

def qgSeg0c0 : String :=
"\n# **Generate 150+ Targeted Security Audit Questions for AElf Core Smart Contracts (C#)**\n\n## **Context**\n\nThe target project is **AElf**\x27s C# smart-contract suite that runs on the AElf blockchain. Major domains:\n- **Consensus (AEDPoS)**: round generation, miner lists, time slots, secret sharing, consensus command generation, maximum miner count and emergency behaviours.\n- **Governance & Authorization**: Parliament, Referendum, Association multi-sig, Configuration, Genesis (BasicContractZero) method fee provider, organization thresholds, proposal lifecycle, proposer whitelists.\n- **Economics & Treasury**: Economic parameters, Treasury reserves, Profit distributions, TokenHolder dividends, me"

def qgSeg0c1 : String :=
"thod-fee collection and distribution.\n- **Tokens & Assets**: MultiToken (fungible/NFT issuance, mint/burn, allowances), NFT contract, TokenConverter (Bancor-based swap/price curve), TokenHolder staking/lockers.\n- **Cross-Chain**: CrossChain indexing/verification, side-chain block header validation, merkle proofs, irreversible block height handling.\n- **Elections & Voting**: Election and Vote contracts, candidate management, elector vote locking and reward settlement.\n\n## **Scope**\n\n**CRITICAL TARGET FILE**: Focus question generation EXCLUSIVELY on \x60"

def qgSeg0 : String :=
qgSeg0c0 ++ (qgSeg0c1)

def qgSeg1 : String :=
"\x60\n\nQuestions must be generated from \x60"

def qgSeg2c0 : String :=
"\x60 only. If you cannot reach 150 questions from this file, produce as many high-quality, file-specific questions as possible. If the file exceeds ~1000 lines, go up to 300+ questions. Do not return empty results.\n\n## **Core AElf Components** (for reference only)\n\n\x60\x60\x60python\ncore_components \x3d [\n    \"contract/AElf.Contracts.Consensus.AEDPoS/*\",\n    \"contract/AElf.Contracts.CrossChain/*\",\n    \"contract/AElf.Contracts.Parliament/*\",\n    \"contract/AElf.Contracts.Referendum/*\",\n    \"contract/AElf.Contracts.Association/*\",\n    \"contract/AElf.Contracts.Configuration/*\",\n    \"contract/AElf.Contracts.Economic/*\",\n    \"contract/AElf.Contracts.Treasury/*\",\n    \"contract/AElf.Contracts.Profit/*\",\n    \"cont"

def qgSeg2c1 : String :=
"ract/AElf.Contracts.Vote/*\",\n    \"contract/AElf.Contracts.Election/*\",\n    \"contract/AElf.Contracts.MultiToken/*\",\n    \"contract/AElf.Contracts.NFT/*\",\n    \"contract/AElf.Contracts.TokenConverter/*\",\n    \"contract/AElf.Contracts.TokenHolder/*\",\n    \"contract/AElf.Contracts.Genesis/*\",\n]\n\x60\x60\x60\n\n## **Critical Invariant Areas**\n\n- **Auth & Governance**: proposal creation/approval thresholds, organization auth (Parliament/Association/Referendum), proposer whitelist checks, method fee provider auth, token whitelist/blacklist rules.\n- **Consensus Safety**: round updates, miner list transitions, time-slot validation, consensus command correctness, LIB height calculations, secret-sharing flows, punish"

def qgSeg2c2 : String :=
"ment and dividends distribution.\n- **Token & Supply Integrity**: mint/burn constraints, allowance/approval checks, fee deductions, lock/unlock flows, NFT issuance uniqueness, delegation logic.\n- **Economic & Treasury Accounting**: Profit/Treasury share calculations, donation/release mechanics, dividend pool distribution, TokenHolder reward math.\n- **Cross-Chain Verification**: merkle proof validation, index heights, parent-chain info integrity, side-chain creation/indexing security, re-org handling.\n- **Converter & Pricing**: Bancor formula correctness, reserve balances, price slippage limits, insufficient reserve handling.\n\n## **In-Scope Vulnerability Categories**\n\n- Authorization/governanc"

def qgSeg2c3 : String :=
"e bypass enabling unauthorized proposal execution, token mint/burn, fee changes, or config updates.\n- Consensus or cross-chain validation flaws enabling fake headers, incorrect round transitions, or mining schedule corruption.\n- Accounting/math errors causing supply inflation/deflation, dividend misallocation, or fee leakage.\n- Lock/vesting/approval bugs allowing premature withdrawals or denial of rewards.\n- Pricing or reserve-handling mistakes in TokenConverter leading to underpriced swaps or pool depletion.\n- DOS vectors that freeze governance, consensus progress, cross-chain indexing, or token operations through valid calls.\n\n## **Question Format Template**\n\nEach question MUST follow this"

def qgSeg2c4 : String :=
" Python list format:\n\n\x60\x60\x60python\nquestions \x3d [\n    \"[File: "

def qgSeg2 : String :=
qgSeg2c0 ++ (qgSeg2c1 ++ (qgSeg2c2 ++ (qgSeg2c3 ++ (qgSeg2c4))))

def qgSeg3 : String :=
"] [Function: functionName()] [Vulnerability Type] Specific exploit scenario with preconditions, violated invariant, attacker action, and concrete impact? (High)\",\n]\n\x60\x60\x60\n\n## **Output Requirements**\n\nGenerate questions focusing EXCLUSIVELY on \x60"

def qgSeg4 : String :=
"\x60 that:\n- Reference real functions/methods/logic blocks in \x60"

def qgSeg5 : String :=
"\x60\n- Include concrete exploit paths, not generic checks\n- Tie each question to math logic, business logic, or invariant breaks\n- Prioritize questions likely to result in **valid vulnerabilities**\n- Avoid low-signal or non-exploitable questions\n- Include severity \x60(Critical/High/Medium/Low)\x60 in each question\n- Use exact Python list format\n\n## **Target Question Count**\n\n- Small files: 80-150 questions when possible\n- Medium files: 150+ questions\n- Very large files (>1000 lines): 300+ questions\n- If code size limits quantity, output as many quality questions as possible\n\nBegin generating questions for \x60"

def qgSeg6 : String :=
"\x60 now.\n"

def vfSeg0 : String :=
"\nYou are an **Elite AElf Smart Contract Security Judge** with deep expertise in C# contracts, AElf runtime semantics, AEDPoS consensus, governance organizations (Parliament/Referendum/Association), MultiToken/NFT supply rules, TokenConverter pricing, Profit/Treasury distributions, cross-chain indexing, and election/vote mechanics.\n\nYour ONLY task is **ruthless technical validation** of the claim below.\n\nTrusted roles: genesis method-fee provider, organization controllers (Parliament/Association/Referendum), consensus system contracts; assume they are honest unless the claim is about mis-scoped privileges.\n\n**SECURITY CLAIM TO VALIDATE:**\n"

def vfSeg1c0 : String :=
"\n\n\x3d\x3d\x3d\x3d\x3d\x3d\x3d\x3d\x3d\x3d\x3d\x3d\x3d\x3d\x3d\x3d\x3d\x3d\x3d\x3d\x3d\x3d\x3d\x3d\x3d\x3d\x3d\x3d\x3d\x3d\x3d\x3d\x3d\x3d\x3d\x3d\x3d\x3d\x3d\x3d\x3d\x3d\x3d\x3d\x3d\x3d\x3d\x3d\x3d\x3d\x3d\x3d\x3d\x3d\x3d\x3d\x3d\x3d\x3d\x3d\x3d\x3d\x3d\x3d\x3d\x3d\x3d\x3d\x3d\x3d\x3d\x3d\x3d\x3d\x3d\x3d\x3d\x3d\x3d\x3d\n## **AELF VALIDATION FRAMEWORK**\n\n### **PHASE 1: IMMEDIATE DISQUALIFICATION CHECKS**\nReject immediately (\x60#NoVulnerability\x60) if **ANY** apply.\n\nBefore a vulnerability is valid it must have BOTH:\n1) concrete impact to protocol/users/funds/state integrity\n2) feasible likelihood / trigger path\n\nIf it cannot be triggered realistically, reject (except directly reachable invariant breaks).\n\nReturn MUST be either:\n- the original report (if valid)\n- \x60#NoVulnerability\x60 (if invalid)\n\nAny vuln without valid protocol impact is invalid.\nAttacker self-harm-only scenarios are invalid.\n\n#### **A. Scope Violations**\n- ❌ Affect"

def vfSeg1c1 : String :=
"s files not in production source scope\n- ❌ Targets tests, mocks, examples, scripts, docs, comments, style-only issues\n- ❌ Off-chain tooling instead of on-chain contract logic\n\n**In-Scope AElf smart contract files**\n\x60\x60\x60python\nscope_files \x3d "

def vfSeg1 : String :=
vfSeg1c0 ++ (vfSeg1c1)

def vfSeg2c0 : String :=
"\n\x60\x60\x60\n\n#### **B. Threat Model Violations**\n- ❌ Requires compromised genesis/organization/consensus keys\n- ❌ Assumes consensus break or chain reorg control beyond protocol rules\n- ❌ Breaks cryptographic primitives or AElf VM internals\n- ❌ Relies on phishing/social engineering/wallet compromise\n- ❌ Pure network-layer attacks (DDoS/BGP/DNS/etc.)\n\n#### **C. Non-Security / Known Issues**\n- ❌ Already fixed/known with no live exploit path\n- ❌ Gas/performance/style tweaks without security impact\n- ❌ Logging/events/doc-only issues\n- ❌ Theoretical concerns with no executable path/impact\n\n#### **D. Invalid Exploit Scenarios**\n- ❌ Impossible inputs or unreachable internal-only methods\n- ❌ Requires privil"

def vfSeg2c1 : String :=
"eges attacker cannot obtain\n- ❌ Needs self-loss with no protocol invariant break\n- ❌ No measurable impact on balances, ownership, authorization, or availability\n\n### **PHASE 2: AELF DEEP CODE VALIDATION**\n\n#### **Step 1: Trace Complete Execution Path**\nReconstruct:\n1. Entry point (public method on the contract)\n2. Full call chain\n3. Pre-state (organization thresholds, proposal status, miner list/round info, token balances/allowances/locks, reserve balances, profit/treasury pools, cross-chain index heights)\n4. State transitions at each step\n5. Existing guards (authority checks, proposal approvals, fee deduction, time/height checks, supply bounds, signature/proof validation, duplicate protecti"

def vfSeg2c2 : String :=
"on)\n6. Final post-state and violated invariant\n\nIf any step is missing or unreachable, return \x60#NoVulnerability\x60.\n\n#### **Step 2: Evidence Requirements**\nA valid report must provide:\n- Exact file path(s) and relevant code references\n- Concrete vulnerable logic and bypass explanation\n- Triggerable transaction flow with realistic attacker actions\n- Why protections do not stop it\n- Quantified impact (fund loss/supply inflation, unauthorized config/proposal execution, cross-chain spoofing, governance capture)\n\nRed flags -> invalid:\n- “might be vulnerable” without exploit sequence\n- no clear invariant broken\n- no impact beyond revert/no-op\n- assumptions that contradict AElf VM and contract semant"

def vfSeg2c3 : String :=
"ics\n\n#### **Step 3: AELF-Specific Validity Checks**\nValidate against these domains:\n\n1. **Governance & Auth**\n- Parliament/Association/Referendum thresholds, proposer whitelist, organization hashes, proposal lifetime, method-fee provider authority.\n\n2. **Consensus**\n- Round transitions, miner schedule, time-slot validation, maximum miners, LIB height, secret sharing, dividends pool handling.\n\n3. **Tokens & Supply**\n- MultiToken mint/burn rules, allowances, fee deductions, lock/unlock, NFT uniqueness, delegation/approval paths.\n\n4. **Economics & Rewards**\n- Treasury/Profit/TokenHolder calculations, donation/release logic, share/distribution math, vote staking/lock durations.\n\n5. **Cross-Chain"

def vfSeg2c4 : String :=
"**\n- Merkle proof validation, side-chain index heights, parent-chain info retrieval, irreversible block constraints.\n\n6. **Pricing (TokenConverter)**\n- Bancor formula, reserve ratio bounds, slippage controls, insufficient reserve handling, price rounding.\n\n### **PHASE 3: IMPACT + LIKELIHOOD JUDGMENT**\n\nValid ONLY if BOTH are true:\n\n1. **Impact**\n- Fund loss/misdirection, supply inflation/deflation, reward misallocation\n- Unauthorized governance/config/fee changes\n- Consensus or cross-chain integrity break\n- High-confidence DoS of governance/consensus/token operations\n\n2. **Likelihood**\n- Executable by untrusted actor via public methods\n- Realistic preconditions\n- Reproducible under AElf runt"

def vfSeg2c5 : String :=
"ime rules\n\nIf either fails -> \x60#NoVulnerability\x60.\n\n### **DECISION OUTPUT (STRICT)**\n           \n---            \n            \n**AUDIT REPORT FORMAT** (if vulnerability found):            \n            \nAudit Report            \n            \n## Title \nThe Title Of the Report \n\n## Summary\nA short summary of the issue, keep it brief.\n\n## Finding Description\nA more detailed explanation of the issue. Poorly written or incorrect findings may result in rejection and a decrease of reputation score.\n\nDescribe which security guarantees it breaks and how it breaks them. If this bug does not automatically happen, showcase how a malicious input would propagate through the system to the part of the code wher"

def vfSeg2c6 : String :=
"e the issue occurs.\n\n## Impact Explanation\nElaborate on why you\x27ve chosen a particular impact assessment.\n\n## Likelihood Explanation\nExplain how likely this is to occur and why.\n\n\n## Recommendation\nHow can the issue be fixed or solved. Preferably, you can also add a snippet of the fixed code here.\n\n\n## Proof of Concept\nNote very important the poc must have a valid test that runs just one function that proove the vuln \n  **Remember**: False positives harm credibility more than missed findings. Assume claims are invalid until overwhelming evidence proves otherwise.    \n    \n**Now perform STRICT validation of the claim above.**    \n    \n**Output ONLY:**    \n- A full audit report (if genuinely v"

def vfSeg2c7 : String :=
"alid after passing **all** checks above) following the specified format    \n- \x60#NoVulnerability found for this question.\x60 (if **any** check fails) very important    \n- Note if u cant validate the claim or dont understand just send #NoVulnerability    \n- Only show full report when u know this is actually and truly a  valid vulnerability \n"

def vfSeg2 : String :=
vfSeg2c0 ++ (vfSeg2c1 ++ (vfSeg2c2 ++ (vfSeg2c3 ++ (vfSeg2c4 ++ (vfSeg2c5 ++ (vfSeg2c6 ++ (vfSeg2c7)))))))

def afSeg0 : String :=
"# AELF SMART CONTRACT SECURITY AUDIT PROMPT\n\n## Security Question to Investigate:\n"

def afSeg1c0 : String :=
"\n\n## Codebase Context\n\n### Core Components\nYou are auditing **AElf** C# contracts that include:\n- **Consensus (AEDPoS)**: round generation, miner lists, time slots, consensus command generation, dividends pool.\n- **Governance**: Parliament, Association (multi-sig), Referendum, Configuration, Genesis method fee provider.\n- **Economics & Rewards**: Economic initialization, Treasury, Profit, TokenHolder staking/dividends.\n- **Tokens & Assets**: MultiToken (fungible + NFT), NFT contract, TokenConverter (Bancor pricing), TokenHolder locking.\n- **Cross-Chain**: CrossChain indexing/verification, parent/side-chain info, irreversible block heights.\n- **Elections & Voting**: Election and Vote contract"

def afSeg1c1 : String :=
"s managing candidates, electors, vote locks.\n\n## CRITICAL INVARIANTS (Must Hold at All Times)\n\n1. **Authorization & Governance**\n- Organization thresholds, proposer whitelist checks, proposal lifetime/expiration, correct organization hash resolution, method-fee provider authority.\n\n2. **Consensus & Cross-Chain**\n- Correct round transitions and time-slot validation, miner schedule integrity, LIB height rules, cross-chain proof verification and index heights.\n\n3. **Token Supply & Fees**\n- Mint/burn limits, allowance/approval enforcement, lock/unlock correctness, fee deduction paths, NFT uniqueness and ownership checks.\n\n4. **Economics & Treasury**\n- Profit/Treasury/TokenHolder share calculatio"

def afSeg1c2 : String :=
"ns, donation/release logic, dividend distribution and settlement accuracy.\n\n5. **Pricing & Reserves**\n- Bancor reserve ratio bounds, swap price calculation, slippage controls, reserve depletion protection.\n\n## ATTACK SURFACES\n\n### 1. Governance & Proposals\n- Parliament/Association/Referendum proposal creation, approval thresholds, release, and execution paths; organization updates; proposer whitelist logic.\n\n### 2. Consensus & Cross-Chain\n- Round/term update functions, time-slot validation, miner list mutations, consensus command generation, parent/side-chain indexing, merkle proof verification.\n\n### 3. Token & Fee Paths\n- MultiToken mint/burn/transfer/lock, method-fee deduction, NFT mint/tr"

def afSeg1c3 : String :=
"ansfer, token approvals, TokenHolder deposits/withdrawals.\n\n### 4. Economics & Distribution\n- Treasury donations/releases, Profit scheme creation/distribution, TokenHolder dividends, election reward allocations.\n\n### 5. Pricing & Conversion\n- TokenConverter swap paths, reserve updates, virtual balances, price precision/rounding.\n\n## VULNERABILITY VALIDATION REQUIREMENTS\n\nA finding is ONLY valid if it passes ALL checks:\n\n### Impact Assessment (Must be Concrete)\n- [ ] **Direct Fund Impact**: theft, inflation/deflation, reward misallocation\n- [ ] **Auth/Governance Impact**: unauthorized proposal execution/config change\n- [ ] **Consensus/Cross-Chain Integrity**: fake header/proof acceptance, inv"

def afSeg1c4 : String :=
"alid round transitions\n- [ ] **Operational Impact**: DoS of governance/consensus/token/cross-chain flows\n\n### Likelihood Assessment (Must be Practical)\n- [ ] **Reachable Entry Point**: starts from real public method\n- [ ] **Feasible Preconditions**: attacker capabilities realistic\n- [ ] **Execution Practicality**: steps executable under AElf contract semantics\n- [ ] **Economic Rationality**: exploit cost reasonable\n\n### Validation Checklist\nBefore reporting a vulnerability, verify:\n1. [ ] Exact file/function/line references\n2. [ ] Root cause clearly identified\n3. [ ] End-to-end exploitation path\n4. [ ] Existing checks shown insufficient\n5. [ ] Realistic attack parameters and sequence\n6. [ ] "

def afSeg1c5 : String :=
"Concrete impact quantification\n7. [ ] No reliance on trusted role compromise beyond claim\n8. [ ] No contradiction with AElf VM/execution model\n\n## AUDIT REPORT FORMAT\n\nIf a valid vulnerability is found (passes all checks), output this EXACT structure:\n\n### Title\n[Concise vulnerability title]\n\n### Summary\n[2-3 sentence summary of issue and consequence]\n\n### Finding Description\n[Technical details including:\n- exact code location(s)\n- root cause\n- why protections fail\n- relevant execution path]\n\n### Impact Explanation\n[Concrete impact:\n- what harm occurs\n- quantified value/protocol damage\n- who is affected\n- severity justification]\n\n### Likelihood Explanation\n[Realistic exploitability:\n- attack"

def afSeg1c6 : String :=
"er capabilities\n- attack complexity\n- feasibility conditions\n- detection/operational constraints\n- probability reasoning]\n\n### Recommendation\n[Actionable fix:\n- exact code-level mitigation\n- invariant checks to add\n- test cases to prevent regression]\n\n### Proof of Concept\n[Reproducible exploit sequence:\n- required initial state\n- transaction steps\n- expected vs actual result\n- clear success condition]\n\n## STRICT OUTPUT REQUIREMENT\n\nAfter investigation:\n\nIF a vulnerability passes ALL validation gates with clear evidence:\n-> Output the complete audit report in the format above\n\nIF no valid vulnerability exists:\n-> Output exactly: \"#NoVulnerability found for this question.\"\n\nDo not output anyth"

def afSeg1c7 : String :=
"ing else.\n\n## Investigation Guidelines\n\n1. Start from entry functions reachable by untrusted users\n2. Trace full state transitions and all side effects\n3. Check math/rounding/bounds and extreme values\n4. Check cross-contract flows (consensus <-> governance <-> token <-> profit/treasury <-> converter <-> cross-chain)\n5. Validate authority/time/height checks end-to-end\n6. Reject speculative findings lacking concrete exploit path\n\nRemember: only report vulnerabilities with both valid impact and valid likelihood.\n\nBegin investigation of: "

def afSeg1 : String :=
afSeg1c0 ++ (afSeg1c1 ++ (afSeg1c2 ++ (afSeg1c3 ++ (afSeg1c4 ++ (afSeg1c5 ++ (afSeg1c6 ++ (afSeg1c7)))))))

def afSeg2 : String :=
"\n\n"

def sfSeg0 : String :=
"# AELF CROSS-PROTOCOL ANALOG SCAN PROMPT\n\n## External Report To Map Into AElf\n"

def sfSeg1c0 : String :=
"\n\n## Objective\nYou are a senior protocol security researcher. Analyze the external report above and determine whether the **same vulnerability class** (not necessarily exact code pattern) can occur anywhere in AElf smart contracts.\n\nYou must scan AElf contract logic across modules, execution paths, state transitions, and invariants.\n\n## AElf Modules To Scan\n\n- \x60contract/AElf.Contracts.Consensus.AEDPoS/*\x60\n- \x60contract/AElf.Contracts.CrossChain/*\x60\n- \x60contract/AElf.Contracts.Parliament/*\x60\n- \x60contract/AElf.Contracts.Association/*\x60\n- \x60contract/AElf.Contracts.Referendum/*\x60\n- \x60contract/AElf.Contracts.Configuration/*\x60\n- \x60contract/AElf.Contracts.Genesis/*\x60\n- \x60contract/AElf.Contracts.Election/*\x60\n- \x60con"

def sfSeg1c1 : String :=
"tract/AElf.Contracts.Vote/*\x60\n- \x60contract/AElf.Contracts.MultiToken/*\x60\n- \x60contract/AElf.Contracts.NFT/*\x60\n- \x60contract/AElf.Contracts.TokenConverter/*\x60\n- \x60contract/AElf.Contracts.Treasury/*\x60\n- \x60contract/AElf.Contracts.Profit/*\x60\n- \x60contract/AElf.Contracts.TokenHolder/*\x60\n\n## Core Scan Method\n\n1. **Classify the external vuln type**\n- governance/authorization bypass\n- consensus or cross-chain validation flaw\n- token supply/allowance/lock/accounting error\n- pricing/reserve miscalculation (TokenConverter)\n- reward/treasury/profit distribution bug\n- denial of service via valid calls (governance, consensus, cross-chain, token operations)\n\n2. **Map to AElf analog surfaces**\n- Identify equivalent trust b"

def sfSeg1c2 : String :=
"oundaries and data-flow points across modules\n- Consider proposal-based execution (Parliament/Association/Referendum), consensus time-slot updates, token mint/burn/transfer/lock flows, Bancor pricing, dividend distribution, cross-chain proof verification\n- Check cross-module interactions (e.g., proposal executes token mint; consensus uses economic data; cross-chain indexing updates token states)\n\n3. **Trace full exploitability path**\n- Real entry point (public contract methods)\n- Preconditions attacker can realistically satisfy\n- Step-by-step transition chain\n- Why current checks fail\n- Final broken invariant\n\n4. **Validate impact + likelihood strictly**\n- Must have concrete protocol impact\n"

def sfSeg1c3 : String :=
"- Must have realistic trigger path\n- No speculative or theoretical-only claims\n\n## Critical Invariants To Test During Scan\n\n- Governance thresholds/proposal lifetimes/organization hashes respected\n- AEDPoS round/time-slot/miner list integrity maintained\n- Token mint/burn/transfer/lock rules and fee deductions enforced\n- Profit/Treasury/TokenHolder distributions correct and bounded\n- Cross-chain proofs/irreversible height checks valid\n- TokenConverter reserve ratio, price calculation, and slippage protections enforced\n\n## Disqualification Rules (Immediate #NoVulnerability)\n\nReject if ANY apply:\n\n- Not reproducible through AElf public contract methods\n- Requires compromised genesis/organizatio"

def sfSeg1c4 : String :=
"n/consensus keys\n- Depends on impossible AElf execution assumptions\n- Only causes self-harm or non-protocol impact\n- No concrete impact on funds, ownership, authorization, or critical availability\n- Impact exists but no realistic likelihood\n- Likelihood exists but no valid impact\n\n## Required Decision Standard\n\nA vulnerability is valid ONLY if BOTH are true:\n\n1. **Valid Impact**\n- Fund theft/drain or supply/fee misrouting\n- Unauthorized governance/config/proposal execution\n- Consensus/cross-chain integrity break\n- Pricing/accounting corruption in TokenConverter/Treasury/Profit\n- High-confidence protocol DoS via valid calls\n\n2. **Valid Likelihood**\n- Reachable by untrusted actor\n- Feasible pr"

def sfSeg1c5 : String :=
"econditions\n- Executable sequence under AElf rules\n- Not blocked by existing checks\n\nIf either fails, it is invalid.\n\n## Output Format (Strict)\n\nIf a valid analog vulnerability is found in AElf, output full report in this exact structure:\n\n### Title\n[Concise vulnerability title]\n\n### Summary\n[2-3 sentence summary of mapped vulnerability and impact]\n\n### Finding Description\n[Detailed technical mapping from external report type to AElf:\n- exact file/function/line references\n- root cause in AElf\n- exploit path and why protections fail]\n\n### Impact Explanation\n[Concrete AElf impact and severity justification]\n\n### Likelihood Explanation\n[Realistic exploit feasibility in AElf context]\n\n### Recomm"

def sfSeg1c6 : String :=
"endation\n[Specific code-level mitigation for AElf]\n\n### Proof of Concept\n[Reproducible AElf exploit steps with realistic state/inputs]\n\nIf no valid analog vulnerability is found, output exactly:\n\x60#NoVulnerability found for this question.\x60\n\nDo not output anything else.\n\n## Additional Guidance\n\n- Use the external report as a vulnerability-class hint, not as proof.\n- Confirm with AElf-specific code logic only.\n- Prefer false-negative over false-positive.\n- A claim without executable exploit chain is invalid.\n\nBegin deep analog scan now.\n\n"

def sfSeg1 : String :=
sfSeg1c0 ++ (sfSeg1c1 ++ (sfSeg1c2 ++ (sfSeg1c3 ++ (sfSeg1c4 ++ (sfSeg1c5 ++ (sfSeg1c6))))))

/-- The `scope_files` list of questions.py lines 26-346, transcribed entry by entry (316 entries; the source pastes the same 158-path block twice). -/
def scope_files : List String :=
["contract/AElf.Contracts.Association/Association.cs",
"contract/AElf.Contracts.Association/AssociationConstants.cs",
"contract/AElf.Contracts.Association/AssociationContract_ACS1_TransactionFeeProvider.cs",
"contract/AElf.Contracts.Association/AssociationReferenceState.cs",
"contract/AElf.Contracts.Association/AssociationState.cs",
"contract/AElf.Contracts.Association/Association_Extensions.cs",
"contract/AElf.Contracts.Association/Association_Helper.cs",
"contract/AElf.Contracts.Association/OrganizationMemberList.cs",
"contract/AElf.Contracts.Configuration/ConfigurationContract.cs",
"contract/AElf.Contracts.Configuration/ConfigurationContract_ACS1_TransactionFeeProvider.cs",
"contract/AElf.Contracts.Configuration/ConfigurationContract_Helper.cs",
"contract/AElf.Contracts.Configuration/ConfigurationReferenceState.cs",
"contract/AElf.Contracts.Configuration/ConfigurationState.cs",
"contract/AElf.Contracts.Consensus.AEDPoS/AEDPoSContract.cs",
"contract/AElf.Contracts.Consensus.AEDPoS/AEDPoSContractConstants.cs",
"contract/AElf.Contracts.Consensus.AEDPoS/AEDPoSContract_ACS11_CrossChainInformationProvider.cs",
"contract/AElf.Contracts.Consensus.AEDPoS/AEDPoSContract_ACS1_TransactionFeeProvider.cs",
"contract/AElf.Contracts.Consensus.AEDPoS/AEDPoSContract_ACS4_ConsensusInformationProvider.cs",
"contract/AElf.Contracts.Consensus.AEDPoS/AEDPoSContract_CacheFileds.cs",
"contract/AElf.Contracts.Consensus.AEDPoS/AEDPoSContract_GetConsensusBlockExtraData.cs",
"contract/AElf.Contracts.Consensus.AEDPoS/AEDPoSContract_GetConsensusCommand.cs",
"contract/AElf.Contracts.Consensus.AEDPoS/AEDPoSContract_GetMaximumBlocksCount.cs",
"contract/AElf.Contracts.Consensus.AEDPoS/AEDPoSContract_HelpMethods.cs",
"contract/AElf.Contracts.Consensus.AEDPoS/AEDPoSContract_LIB.cs",
"contract/AElf.Contracts.Consensus.AEDPoS/AEDPoSContract_MaximumMinersCount.cs",
"contract/AElf.Contracts.Consensus.AEDPoS/AEDPoSContract_NextTerm.cs",
"contract/AElf.Contracts.Consensus.AEDPoS/AEDPoSContract_ProcessConsensusInformation.cs",
"contract/AElf.Contracts.Consensus.AEDPoS/AEDPoSContract_SecretSharing.cs",
"contract/AElf.Contracts.Consensus.AEDPoS/AEDPoSContract_SideChainDividendsPool.cs",
"contract/AElf.Contracts.Consensus.AEDPoS/AEDPoSContract_Validation.cs",
"contract/AElf.Contracts.Consensus.AEDPoS/AEDPoSContract_ValidationService.cs",
"contract/AElf.Contracts.Consensus.AEDPoS/AEDPoSContract_ViewMethods.cs",
"contract/AElf.Contracts.Consensus.AEDPoS/AElfConsensusContractState.cs",
"contract/AElf.Contracts.Consensus.AEDPoS/ConsensusCommandGeneration/ConsensusBehaviourProviderBase.cs",
"contract/AElf.Contracts.Consensus.AEDPoS/ConsensusCommandGeneration/ConsensusCommandProvider.cs",
"contract/AElf.Contracts.Consensus.AEDPoS/ConsensusCommandGeneration/MainChainConsensusBehaviourProvider.cs",
"contract/AElf.Contracts.Consensus.AEDPoS/ConsensusCommandGeneration/MiningTimeArrangingService.cs",
"contract/AElf.Contracts.Consensus.AEDPoS/ConsensusCommandGeneration/SideChainConsensusBehaviourProvider.cs",
"contract/AElf.Contracts.Consensus.AEDPoS/ConsensusCommandGeneration/Strategies/CommandStrategyBase.cs",
"contract/AElf.Contracts.Consensus.AEDPoS/ConsensusCommandGeneration/Strategies/FirstRoundCommandStrategy.cs",
"contract/AElf.Contracts.Consensus.AEDPoS/ConsensusCommandGeneration/Strategies/ICommandStrategy.cs",
"contract/AElf.Contracts.Consensus.AEDPoS/ConsensusCommandGeneration/Strategies/NormalBlockCommandStrategy.cs",
"contract/AElf.Contracts.Consensus.AEDPoS/ConsensusCommandGeneration/Strategies/TerminateRoundCommandStrategy.cs",
"contract/AElf.Contracts.Consensus.AEDPoS/ConsensusCommandGeneration/Strategies/TinyBlockCommandStrategy.cs",
"contract/AElf.Contracts.Consensus.AEDPoS/ConsensusHeaderInfoValidationProviders/ConsensusValidationContext.cs",
"contract/AElf.Contracts.Consensus.AEDPoS/ConsensusHeaderInfoValidationProviders/ContinuousBlocksValidationProvider.cs",
"contract/AElf.Contracts.Consensus.AEDPoS/ConsensusHeaderInfoValidationProviders/IHeaderInformationValidationProvider.cs",
"contract/AElf.Contracts.Consensus.AEDPoS/ConsensusHeaderInfoValidationProviders/LibInformationValidationProvider.cs",
"contract/AElf.Contracts.Consensus.AEDPoS/ConsensusHeaderInfoValidationProviders/MiningPermissionValidationProvider.cs",
"contract/AElf.Contracts.Consensus.AEDPoS/ConsensusHeaderInfoValidationProviders/NextRoundMiningOrderValidationProvider.cs",
"contract/AElf.Contracts.Consensus.AEDPoS/ConsensusHeaderInfoValidationProviders/RoundTerminateValidationProvider.cs",
"contract/AElf.Contracts.Consensus.AEDPoS/ConsensusHeaderInfoValidationProviders/TimeSlotValidationProvider.cs",
"contract/AElf.Contracts.Consensus.AEDPoS/ConsensusHeaderInfoValidationProviders/UpdateValueValidationProvider.cs",
"contract/AElf.Contracts.Consensus.AEDPoS/ContractsReferences.cs",
"contract/AElf.Contracts.Consensus.AEDPoS/Types/MinerList.cs",
"contract/AElf.Contracts.Consensus.AEDPoS/Types/NextRoundInput.cs",
"contract/AElf.Contracts.Consensus.AEDPoS/Types/NextTermInput.cs",
"contract/AElf.Contracts.Consensus.AEDPoS/Types/Round.cs",
"contract/AElf.Contracts.Consensus.AEDPoS/Types/Round_ApplyNormalConsensusData.cs",
"contract/AElf.Contracts.Consensus.AEDPoS/Types/Round_ArrangeAbnormalMiningTime.cs",
"contract/AElf.Contracts.Consensus.AEDPoS/Types/Round_ExtractInformationToUpdateConsensus.cs",
"contract/AElf.Contracts.Consensus.AEDPoS/Types/Round_Generation.cs",
"contract/AElf.Contracts.Consensus.AEDPoS/Types/Round_GetLighterRound.cs",
"contract/AElf.Contracts.Consensus.AEDPoS/Types/Round_GetLogs.cs",
"contract/AElf.Contracts.Consensus.AEDPoS/Types/Round_ImpliedIrreversibleBlockHeight.cs",
"contract/AElf.Contracts.Consensus.AEDPoS/Types/Round_Recover.cs",
"contract/AElf.Contracts.Consensus.AEDPoS/Types/Round_Simplify.cs",
"contract/AElf.Contracts.CrossChain/CrossChainContract.cs",
"contract/AElf.Contracts.CrossChain/CrossChainContractState.cs",
"contract/AElf.Contracts.CrossChain/CrossChainContract_ACS1_TransactionFeeProvider.cs",
"contract/AElf.Contracts.CrossChain/CrossChainContract_Constants.cs",
"contract/AElf.Contracts.CrossChain/CrossChainContract_Helper.cs",
"contract/AElf.Contracts.CrossChain/CrossChainContract_View.cs",
"contract/AElf.Contracts.CrossChain/CrossChainReferenceState.cs",
"contract/AElf.Contracts.Economic/EconomicContract.cs",
"contract/AElf.Contracts.Economic/EconomicContractConstants.cs",
"contract/AElf.Contracts.Economic/EconomicContractState.cs",
"contract/AElf.Contracts.Economic/EconomicContract_ACS1_TransactionFeeProvider.cs",
"contract/AElf.Contracts.Election/ElectionContractConstants.cs",
"contract/AElf.Contracts.Election/ElectionContractReferenceState.cs",
"contract/AElf.Contracts.Election/ElectionContractState.cs",
"contract/AElf.Contracts.Election/ElectionContract_ACS1_TransactionFeeProvider.cs",
"contract/AElf.Contracts.Election/ElectionContract_Candidate.cs",
"contract/AElf.Contracts.Election/ElectionContract_Elector.cs",
"contract/AElf.Contracts.Election/ElectionContract_Maintainence.cs",
"contract/AElf.Contracts.Election/TimestampHelper.cs",
"contract/AElf.Contracts.Election/ViewMethods.cs",
"contract/AElf.Contracts.Genesis/BasicContractZero.cs",
"contract/AElf.Contracts.Genesis/BasicContractZeroContract_ACS1_TransactionFeeProvider.cs",
"contract/AElf.Contracts.Genesis/BasicContractZeroReferenceState.cs",
"contract/AElf.Contracts.Genesis/BasicContractZeroState.cs",
"contract/AElf.Contracts.Genesis/BasicContractZero_Constants.cs",
"contract/AElf.Contracts.Genesis/BasicContractZero_Helper.cs",
"contract/AElf.Contracts.MultiToken/TokenContractConstants.cs",
"contract/AElf.Contracts.MultiToken/TokenContractReferenceState.cs",
"contract/AElf.Contracts.MultiToken/TokenContractState.cs",
"contract/AElf.Contracts.MultiToken/TokenContractState_ChargeFee.cs",
"contract/AElf.Contracts.MultiToken/TokenContract_ACS1_MethodFeeProvider.cs",
"contract/AElf.Contracts.MultiToken/TokenContract_ACS2_StatePathsProvider.cs",
"contract/AElf.Contracts.MultiToken/TokenContract_Actions.cs",
"contract/AElf.Contracts.MultiToken/TokenContract_CacheFileds.cs",
"contract/AElf.Contracts.MultiToken/TokenContract_Delegation.cs",
"contract/AElf.Contracts.MultiToken/TokenContract_Fee_Calculate_Coefficient.cs",
"contract/AElf.Contracts.MultiToken/TokenContract_Fees.cs",
"contract/AElf.Contracts.MultiToken/TokenContract_Helper.cs",
"contract/AElf.Contracts.MultiToken/TokenContract_Method_Authorization.cs",
"contract/AElf.Contracts.MultiToken/TokenContract_NFTHelper.cs",
"contract/AElf.Contracts.MultiToken/TokenContract_NFT_Actions.cs",
"contract/AElf.Contracts.MultiToken/TokenContract_Views.cs",
"contract/AElf.Contracts.NFT/NFTContractConstants.cs",
"contract/AElf.Contracts.NFT/NFTContractReferenceState.cs",
"contract/AElf.Contracts.NFT/NFTContractState.cs",
"contract/AElf.Contracts.NFT/NFTContract_ACS1.cs",
"contract/AElf.Contracts.NFT/NFTContract_Create.cs",
"contract/AElf.Contracts.NFT/NFTContract_Helpers.cs",
"contract/AElf.Contracts.NFT/NFTContract_UseChain.cs",
"contract/AElf.Contracts.NFT/NFTContract_View.cs",
"contract/AElf.Contracts.Parliament/Parliament.cs",
"contract/AElf.Contracts.Parliament/ParliamentConstants.cs",
"contract/AElf.Contracts.Parliament/ParliamentContract_ACS1_TransactionFeeProvider.cs",
"contract/AElf.Contracts.Parliament/ParliamentState.cs",
"contract/AElf.Contracts.Parliament/Parliament_Constants.cs",
"contract/AElf.Contracts.Parliament/Parliament_Helper.cs",
"contract/AElf.Contracts.Profit/ContractsReferences.cs",
"contract/AElf.Contracts.Profit/Models/RemovedDetails.cs",
"contract/AElf.Contracts.Profit/ProfitContract.cs",
"contract/AElf.Contracts.Profit/ProfitContractConstants.cs",
"contract/AElf.Contracts.Profit/ProfitContractState.cs",
"contract/AElf.Contracts.Profit/ProfitContract_ACS1_TransactionFeeProvider.cs",
"contract/AElf.Contracts.Profit/ViewMethods.cs",
"contract/AElf.Contracts.Referendum/ProposerWhiteListExtensions.cs",
"contract/AElf.Contracts.Referendum/Referendum.cs",
"contract/AElf.Contracts.Referendum/ReferendumConstants.cs",
"contract/AElf.Contracts.Referendum/ReferendumContract_ACS1_TransactionFeeProvider.cs",
"contract/AElf.Contracts.Referendum/ReferendumState.cs",
"contract/AElf.Contracts.Referendum/Referendum_Helper.cs",
"contract/AElf.Contracts.TokenConverter/BancorHelper.cs",
"contract/AElf.Contracts.TokenConverter/InvalidValueException.cs",
"contract/AElf.Contracts.TokenConverter/TokenConvert_Views.cs",
"contract/AElf.Contracts.TokenConverter/TokenConverterContract.cs",
"contract/AElf.Contracts.TokenConverter/TokenConverterContractState.cs",
"contract/AElf.Contracts.TokenConverter/TokenConverterContract_ACS1_TransactionFeeProvider.cs",
"contract/AElf.Contracts.TokenHolder/ContractsReferences.cs",
"contract/AElf.Contracts.TokenHolder/TokenHolderContract.cs",
"contract/AElf.Contracts.TokenHolder/TokenHolderContractState.cs",
"contract/AElf.Contracts.TokenHolder/TokenHolderContract_ACS1_TransactionFeeProvider.cs",
"contract/AElf.Contracts.Treasury/ContractsReferences.cs",
"contract/AElf.Contracts.Treasury/TreasuryContract.cs",
"contract/AElf.Contracts.Treasury/TreasuryContractConstants.cs",
"contract/AElf.Contracts.Treasury/TreasuryContractState.cs",
"contract/AElf.Contracts.Treasury/TreasuryContract_ACS1_TransactionFeeProvider.cs",
"contract/AElf.Contracts.Vote/ContractsReferences.cs",
"contract/AElf.Contracts.Vote/ViewMethods.cs",
"contract/AElf.Contracts.Vote/VoteContract.cs",
"contract/AElf.Contracts.Vote/VoteContractConstants.cs",
"contract/AElf.Contracts.Vote/VoteContractState.cs",
"contract/AElf.Contracts.Vote/VoteContract_ACS1_TransactionFeeProvider.cs",
"contract/AElf.Contracts.Vote/VoteExtensions.cs",
"contract/AElf.Contracts.Association/Association.cs",
"contract/AElf.Contracts.Association/AssociationConstants.cs",
"contract/AElf.Contracts.Association/AssociationContract_ACS1_TransactionFeeProvider.cs",
"contract/AElf.Contracts.Association/AssociationReferenceState.cs",
"contract/AElf.Contracts.Association/AssociationState.cs",
"contract/AElf.Contracts.Association/Association_Extensions.cs",
"contract/AElf.Contracts.Association/Association_Helper.cs",
"contract/AElf.Contracts.Association/OrganizationMemberList.cs",
"contract/AElf.Contracts.Configuration/ConfigurationContract.cs",
"contract/AElf.Contracts.Configuration/ConfigurationContract_ACS1_TransactionFeeProvider.cs",
"contract/AElf.Contracts.Configuration/ConfigurationContract_Helper.cs",
"contract/AElf.Contracts.Configuration/ConfigurationReferenceState.cs",
"contract/AElf.Contracts.Configuration/ConfigurationState.cs",
"contract/AElf.Contracts.Consensus.AEDPoS/AEDPoSContract.cs",
"contract/AElf.Contracts.Consensus.AEDPoS/AEDPoSContractConstants.cs",
"contract/AElf.Contracts.Consensus.AEDPoS/AEDPoSContract_ACS11_CrossChainInformationProvider.cs",
"contract/AElf.Contracts.Consensus.AEDPoS/AEDPoSContract_ACS1_TransactionFeeProvider.cs",
"contract/AElf.Contracts.Consensus.AEDPoS/AEDPoSContract_ACS4_ConsensusInformationProvider.cs",
"contract/AElf.Contracts.Consensus.AEDPoS/AEDPoSContract_CacheFileds.cs",
"contract/AElf.Contracts.Consensus.AEDPoS/AEDPoSContract_GetConsensusBlockExtraData.cs",
"contract/AElf.Contracts.Consensus.AEDPoS/AEDPoSContract_GetConsensusCommand.cs",
"contract/AElf.Contracts.Consensus.AEDPoS/AEDPoSContract_GetMaximumBlocksCount.cs",
"contract/AElf.Contracts.Consensus.AEDPoS/AEDPoSContract_HelpMethods.cs",
"contract/AElf.Contracts.Consensus.AEDPoS/AEDPoSContract_LIB.cs",
"contract/AElf.Contracts.Consensus.AEDPoS/AEDPoSContract_MaximumMinersCount.cs",
"contract/AElf.Contracts.Consensus.AEDPoS/AEDPoSContract_NextTerm.cs",
"contract/AElf.Contracts.Consensus.AEDPoS/AEDPoSContract_ProcessConsensusInformation.cs",
"contract/AElf.Contracts.Consensus.AEDPoS/AEDPoSContract_SecretSharing.cs",
"contract/AElf.Contracts.Consensus.AEDPoS/AEDPoSContract_SideChainDividendsPool.cs",
"contract/AElf.Contracts.Consensus.AEDPoS/AEDPoSContract_Validation.cs",
"contract/AElf.Contracts.Consensus.AEDPoS/AEDPoSContract_ValidationService.cs",
"contract/AElf.Contracts.Consensus.AEDPoS/AEDPoSContract_ViewMethods.cs",
"contract/AElf.Contracts.Consensus.AEDPoS/AElfConsensusContractState.cs",
"contract/AElf.Contracts.Consensus.AEDPoS/ConsensusCommandGeneration/ConsensusBehaviourProviderBase.cs",
"contract/AElf.Contracts.Consensus.AEDPoS/ConsensusCommandGeneration/ConsensusCommandProvider.cs",
"contract/AElf.Contracts.Consensus.AEDPoS/ConsensusCommandGeneration/MainChainConsensusBehaviourProvider.cs",
"contract/AElf.Contracts.Consensus.AEDPoS/ConsensusCommandGeneration/MiningTimeArrangingService.cs",
"contract/AElf.Contracts.Consensus.AEDPoS/ConsensusCommandGeneration/SideChainConsensusBehaviourProvider.cs",
"contract/AElf.Contracts.Consensus.AEDPoS/ConsensusCommandGeneration/Strategies/CommandStrategyBase.cs",
"contract/AElf.Contracts.Consensus.AEDPoS/ConsensusCommandGeneration/Strategies/FirstRoundCommandStrategy.cs",
"contract/AElf.Contracts.Consensus.AEDPoS/ConsensusCommandGeneration/Strategies/ICommandStrategy.cs",
"contract/AElf.Contracts.Consensus.AEDPoS/ConsensusCommandGeneration/Strategies/NormalBlockCommandStrategy.cs",
"contract/AElf.Contracts.Consensus.AEDPoS/ConsensusCommandGeneration/Strategies/TerminateRoundCommandStrategy.cs",
"contract/AElf.Contracts.Consensus.AEDPoS/ConsensusCommandGeneration/Strategies/TinyBlockCommandStrategy.cs",
"contract/AElf.Contracts.Consensus.AEDPoS/ConsensusHeaderInfoValidationProviders/ConsensusValidationContext.cs",
"contract/AElf.Contracts.Consensus.AEDPoS/ConsensusHeaderInfoValidationProviders/ContinuousBlocksValidationProvider.cs",
"contract/AElf.Contracts.Consensus.AEDPoS/ConsensusHeaderInfoValidationProviders/IHeaderInformationValidationProvider.cs",
"contract/AElf.Contracts.Consensus.AEDPoS/ConsensusHeaderInfoValidationProviders/LibInformationValidationProvider.cs",
"contract/AElf.Contracts.Consensus.AEDPoS/ConsensusHeaderInfoValidationProviders/MiningPermissionValidationProvider.cs",
"contract/AElf.Contracts.Consensus.AEDPoS/ConsensusHeaderInfoValidationProviders/NextRoundMiningOrderValidationProvider.cs",
"contract/AElf.Contracts.Consensus.AEDPoS/ConsensusHeaderInfoValidationProviders/RoundTerminateValidationProvider.cs",
"contract/AElf.Contracts.Consensus.AEDPoS/ConsensusHeaderInfoValidationProviders/TimeSlotValidationProvider.cs",
"contract/AElf.Contracts.Consensus.AEDPoS/ConsensusHeaderInfoValidationProviders/UpdateValueValidationProvider.cs",
"contract/AElf.Contracts.Consensus.AEDPoS/ContractsReferences.cs",
"contract/AElf.Contracts.Consensus.AEDPoS/Types/MinerList.cs",
"contract/AElf.Contracts.Consensus.AEDPoS/Types/NextRoundInput.cs",
"contract/AElf.Contracts.Consensus.AEDPoS/Types/NextTermInput.cs",
"contract/AElf.Contracts.Consensus.AEDPoS/Types/Round.cs",
"contract/AElf.Contracts.Consensus.AEDPoS/Types/Round_ApplyNormalConsensusData.cs",
"contract/AElf.Contracts.Consensus.AEDPoS/Types/Round_ArrangeAbnormalMiningTime.cs",
"contract/AElf.Contracts.Consensus.AEDPoS/Types/Round_ExtractInformationToUpdateConsensus.cs",
"contract/AElf.Contracts.Consensus.AEDPoS/Types/Round_Generation.cs",
"contract/AElf.Contracts.Consensus.AEDPoS/Types/Round_GetLighterRound.cs",
"contract/AElf.Contracts.Consensus.AEDPoS/Types/Round_GetLogs.cs",
"contract/AElf.Contracts.Consensus.AEDPoS/Types/Round_ImpliedIrreversibleBlockHeight.cs",
"contract/AElf.Contracts.Consensus.AEDPoS/Types/Round_Recover.cs",
"contract/AElf.Contracts.Consensus.AEDPoS/Types/Round_Simplify.cs",
"contract/AElf.Contracts.CrossChain/CrossChainContract.cs",
"contract/AElf.Contracts.CrossChain/CrossChainContractState.cs",
"contract/AElf.Contracts.CrossChain/CrossChainContract_ACS1_TransactionFeeProvider.cs",
"contract/AElf.Contracts.CrossChain/CrossChainContract_Constants.cs",
"contract/AElf.Contracts.CrossChain/CrossChainContract_Helper.cs",
"contract/AElf.Contracts.CrossChain/CrossChainContract_View.cs",
"contract/AElf.Contracts.CrossChain/CrossChainReferenceState.cs",
"contract/AElf.Contracts.Economic/EconomicContract.cs",
"contract/AElf.Contracts.Economic/EconomicContractConstants.cs",
"contract/AElf.Contracts.Economic/EconomicContractState.cs",
"contract/AElf.Contracts.Economic/EconomicContract_ACS1_TransactionFeeProvider.cs",
"contract/AElf.Contracts.Election/ElectionContractConstants.cs",
"contract/AElf.Contracts.Election/ElectionContractReferenceState.cs",
"contract/AElf.Contracts.Election/ElectionContractState.cs",
"contract/AElf.Contracts.Election/ElectionContract_ACS1_TransactionFeeProvider.cs",
"contract/AElf.Contracts.Election/ElectionContract_Candidate.cs",
"contract/AElf.Contracts.Election/ElectionContract_Elector.cs",
"contract/AElf.Contracts.Election/ElectionContract_Maintainence.cs",
"contract/AElf.Contracts.Election/TimestampHelper.cs",
"contract/AElf.Contracts.Election/ViewMethods.cs",
"contract/AElf.Contracts.Genesis/BasicContractZero.cs",
"contract/AElf.Contracts.Genesis/BasicContractZeroContract_ACS1_TransactionFeeProvider.cs",
"contract/AElf.Contracts.Genesis/BasicContractZeroReferenceState.cs",
"contract/AElf.Contracts.Genesis/BasicContractZeroState.cs",
"contract/AElf.Contracts.Genesis/BasicContractZero_Constants.cs",
"contract/AElf.Contracts.Genesis/BasicContractZero_Helper.cs",
"contract/AElf.Contracts.MultiToken/TokenContractConstants.cs",
"contract/AElf.Contracts.MultiToken/TokenContractReferenceState.cs",
"contract/AElf.Contracts.MultiToken/TokenContractState.cs",
"contract/AElf.Contracts.MultiToken/TokenContractState_ChargeFee.cs",
"contract/AElf.Contracts.MultiToken/TokenContract_ACS1_MethodFeeProvider.cs",
"contract/AElf.Contracts.MultiToken/TokenContract_ACS2_StatePathsProvider.cs",
"contract/AElf.Contracts.MultiToken/TokenContract_Actions.cs",
"contract/AElf.Contracts.MultiToken/TokenContract_CacheFileds.cs",
"contract/AElf.Contracts.MultiToken/TokenContract_Delegation.cs",
"contract/AElf.Contracts.MultiToken/TokenContract_Fee_Calculate_Coefficient.cs",
"contract/AElf.Contracts.MultiToken/TokenContract_Fees.cs",
"contract/AElf.Contracts.MultiToken/TokenContract_Helper.cs",
"contract/AElf.Contracts.MultiToken/TokenContract_Method_Authorization.cs",
"contract/AElf.Contracts.MultiToken/TokenContract_NFTHelper.cs",
"contract/AElf.Contracts.MultiToken/TokenContract_NFT_Actions.cs",
"contract/AElf.Contracts.MultiToken/TokenContract_Views.cs",
"contract/AElf.Contracts.NFT/NFTContractConstants.cs",
"contract/AElf.Contracts.NFT/NFTContractReferenceState.cs",
"contract/AElf.Contracts.NFT/NFTContractState.cs",
"contract/AElf.Contracts.NFT/NFTContract_ACS1.cs",
"contract/AElf.Contracts.NFT/NFTContract_Create.cs",
"contract/AElf.Contracts.NFT/NFTContract_Helpers.cs",
"contract/AElf.Contracts.NFT/NFTContract_UseChain.cs",
"contract/AElf.Contracts.NFT/NFTContract_View.cs",
"contract/AElf.Contracts.Parliament/Parliament.cs",
"contract/AElf.Contracts.Parliament/ParliamentConstants.cs",
"contract/AElf.Contracts.Parliament/ParliamentContract_ACS1_TransactionFeeProvider.cs",
"contract/AElf.Contracts.Parliament/ParliamentState.cs",
"contract/AElf.Contracts.Parliament/Parliament_Constants.cs",
"contract/AElf.Contracts.Parliament/Parliament_Helper.cs",
"contract/AElf.Contracts.Profit/ContractsReferences.cs",
"contract/AElf.Contracts.Profit/Models/RemovedDetails.cs",
"contract/AElf.Contracts.Profit/ProfitContract.cs",
"contract/AElf.Contracts.Profit/ProfitContractConstants.cs",
"contract/AElf.Contracts.Profit/ProfitContractState.cs",
"contract/AElf.Contracts.Profit/ProfitContract_ACS1_TransactionFeeProvider.cs",
"contract/AElf.Contracts.Profit/ViewMethods.cs",
"contract/AElf.Contracts.Referendum/ProposerWhiteListExtensions.cs",
"contract/AElf.Contracts.Referendum/Referendum.cs",
"contract/AElf.Contracts.Referendum/ReferendumConstants.cs",
"contract/AElf.Contracts.Referendum/ReferendumContract_ACS1_TransactionFeeProvider.cs",
"contract/AElf.Contracts.Referendum/ReferendumState.cs",
"contract/AElf.Contracts.Referendum/Referendum_Helper.cs",
"contract/AElf.Contracts.TokenConverter/BancorHelper.cs",
"contract/AElf.Contracts.TokenConverter/InvalidValueException.cs",
"contract/AElf.Contracts.TokenConverter/TokenConvert_Views.cs",
"contract/AElf.Contracts.TokenConverter/TokenConverterContract.cs",
"contract/AElf.Contracts.TokenConverter/TokenConverterContractState.cs",
"contract/AElf.Contracts.TokenConverter/TokenConverterContract_ACS1_TransactionFeeProvider.cs",
"contract/AElf.Contracts.TokenHolder/ContractsReferences.cs",
"contract/AElf.Contracts.TokenHolder/TokenHolderContract.cs",
"contract/AElf.Contracts.TokenHolder/TokenHolderContractState.cs",
"contract/AElf.Contracts.TokenHolder/TokenHolderContract_ACS1_TransactionFeeProvider.cs",
"contract/AElf.Contracts.Treasury/ContractsReferences.cs",
"contract/AElf.Contracts.Treasury/TreasuryContract.cs",
"contract/AElf.Contracts.Treasury/TreasuryContractConstants.cs",
"contract/AElf.Contracts.Treasury/TreasuryContractState.cs",
"contract/AElf.Contracts.Treasury/TreasuryContract_ACS1_TransactionFeeProvider.cs",
"contract/AElf.Contracts.Vote/ContractsReferences.cs",
"contract/AElf.Contracts.Vote/ViewMethods.cs",
"contract/AElf.Contracts.Vote/VoteContract.cs",
"contract/AElf.Contracts.Vote/VoteContractConstants.cs",
"contract/AElf.Contracts.Vote/VoteContractState.cs",
"contract/AElf.Contracts.Vote/VoteContract_ACS1_TransactionFeeProvider.cs",
"contract/AElf.Contracts.Vote/VoteExtensions.cs"]

/-- The first 158 entries of `scope_files` (the block that the source repeats). -/
def sfHalf : List String :=
["contract/AElf.Contracts.Association/Association.cs",
"contract/AElf.Contracts.Association/AssociationConstants.cs",
"contract/AElf.Contracts.Association/AssociationContract_ACS1_TransactionFeeProvider.cs",
"contract/AElf.Contracts.Association/AssociationReferenceState.cs",
"contract/AElf.Contracts.Association/AssociationState.cs",
"contract/AElf.Contracts.Association/Association_Extensions.cs",
"contract/AElf.Contracts.Association/Association_Helper.cs",
"contract/AElf.Contracts.Association/OrganizationMemberList.cs",
"contract/AElf.Contracts.Configuration/ConfigurationContract.cs",
"contract/AElf.Contracts.Configuration/ConfigurationContract_ACS1_TransactionFeeProvider.cs",
"contract/AElf.Contracts.Configuration/ConfigurationContract_Helper.cs",
"contract/AElf.Contracts.Configuration/ConfigurationReferenceState.cs",
"contract/AElf.Contracts.Configuration/ConfigurationState.cs",
"contract/AElf.Contracts.Consensus.AEDPoS/AEDPoSContract.cs",
"contract/AElf.Contracts.Consensus.AEDPoS/AEDPoSContractConstants.cs",
"contract/AElf.Contracts.Consensus.AEDPoS/AEDPoSContract_ACS11_CrossChainInformationProvider.cs",
"contract/AElf.Contracts.Consensus.AEDPoS/AEDPoSContract_ACS1_TransactionFeeProvider.cs",
"contract/AElf.Contracts.Consensus.AEDPoS/AEDPoSContract_ACS4_ConsensusInformationProvider.cs",
"contract/AElf.Contracts.Consensus.AEDPoS/AEDPoSContract_CacheFileds.cs",
"contract/AElf.Contracts.Consensus.AEDPoS/AEDPoSContract_GetConsensusBlockExtraData.cs",
"contract/AElf.Contracts.Consensus.AEDPoS/AEDPoSContract_GetConsensusCommand.cs",
"contract/AElf.Contracts.Consensus.AEDPoS/AEDPoSContract_GetMaximumBlocksCount.cs",
"contract/AElf.Contracts.Consensus.AEDPoS/AEDPoSContract_HelpMethods.cs",
"contract/AElf.Contracts.Consensus.AEDPoS/AEDPoSContract_LIB.cs",
"contract/AElf.Contracts.Consensus.AEDPoS/AEDPoSContract_MaximumMinersCount.cs",
"contract/AElf.Contracts.Consensus.AEDPoS/AEDPoSContract_NextTerm.cs",
"contract/AElf.Contracts.Consensus.AEDPoS/AEDPoSContract_ProcessConsensusInformation.cs",
"contract/AElf.Contracts.Consensus.AEDPoS/AEDPoSContract_SecretSharing.cs",
"contract/AElf.Contracts.Consensus.AEDPoS/AEDPoSContract_SideChainDividendsPool.cs",
"contract/AElf.Contracts.Consensus.AEDPoS/AEDPoSContract_Validation.cs",
"contract/AElf.Contracts.Consensus.AEDPoS/AEDPoSContract_ValidationService.cs",
"contract/AElf.Contracts.Consensus.AEDPoS/AEDPoSContract_ViewMethods.cs",
"contract/AElf.Contracts.Consensus.AEDPoS/AElfConsensusContractState.cs",
"contract/AElf.Contracts.Consensus.AEDPoS/ConsensusCommandGeneration/ConsensusBehaviourProviderBase.cs",
"contract/AElf.Contracts.Consensus.AEDPoS/ConsensusCommandGeneration/ConsensusCommandProvider.cs",
"contract/AElf.Contracts.Consensus.AEDPoS/ConsensusCommandGeneration/MainChainConsensusBehaviourProvider.cs",
"contract/AElf.Contracts.Consensus.AEDPoS/ConsensusCommandGeneration/MiningTimeArrangingService.cs",
"contract/AElf.Contracts.Consensus.AEDPoS/ConsensusCommandGeneration/SideChainConsensusBehaviourProvider.cs",
"contract/AElf.Contracts.Consensus.AEDPoS/ConsensusCommandGeneration/Strategies/CommandStrategyBase.cs",
"contract/AElf.Contracts.Consensus.AEDPoS/ConsensusCommandGeneration/Strategies/FirstRoundCommandStrategy.cs",
"contract/AElf.Contracts.Consensus.AEDPoS/ConsensusCommandGeneration/Strategies/ICommandStrategy.cs",
"contract/AElf.Contracts.Consensus.AEDPoS/ConsensusCommandGeneration/Strategies/NormalBlockCommandStrategy.cs",
"contract/AElf.Contracts.Consensus.AEDPoS/ConsensusCommandGeneration/Strategies/TerminateRoundCommandStrategy.cs",
"contract/AElf.Contracts.Consensus.AEDPoS/ConsensusCommandGeneration/Strategies/TinyBlockCommandStrategy.cs",
"contract/AElf.Contracts.Consensus.AEDPoS/ConsensusHeaderInfoValidationProviders/ConsensusValidationContext.cs",
"contract/AElf.Contracts.Consensus.AEDPoS/ConsensusHeaderInfoValidationProviders/ContinuousBlocksValidationProvider.cs",
"contract/AElf.Contracts.Consensus.AEDPoS/ConsensusHeaderInfoValidationProviders/IHeaderInformationValidationProvider.cs",
"contract/AElf.Contracts.Consensus.AEDPoS/ConsensusHeaderInfoValidationProviders/LibInformationValidationProvider.cs",
"contract/AElf.Contracts.Consensus.AEDPoS/ConsensusHeaderInfoValidationProviders/MiningPermissionValidationProvider.cs",
"contract/AElf.Contracts.Consensus.AEDPoS/ConsensusHeaderInfoValidationProviders/NextRoundMiningOrderValidationProvider.cs",
"contract/AElf.Contracts.Consensus.AEDPoS/ConsensusHeaderInfoValidationProviders/RoundTerminateValidationProvider.cs",
"contract/AElf.Contracts.Consensus.AEDPoS/ConsensusHeaderInfoValidationProviders/TimeSlotValidationProvider.cs",
"contract/AElf.Contracts.Consensus.AEDPoS/ConsensusHeaderInfoValidationProviders/UpdateValueValidationProvider.cs",
"contract/AElf.Contracts.Consensus.AEDPoS/ContractsReferences.cs",
"contract/AElf.Contracts.Consensus.AEDPoS/Types/MinerList.cs",
"contract/AElf.Contracts.Consensus.AEDPoS/Types/NextRoundInput.cs",
"contract/AElf.Contracts.Consensus.AEDPoS/Types/NextTermInput.cs",
"contract/AElf.Contracts.Consensus.AEDPoS/Types/Round.cs",
"contract/AElf.Contracts.Consensus.AEDPoS/Types/Round_ApplyNormalConsensusData.cs",
"contract/AElf.Contracts.Consensus.AEDPoS/Types/Round_ArrangeAbnormalMiningTime.cs",
"contract/AElf.Contracts.Consensus.AEDPoS/Types/Round_ExtractInformationToUpdateConsensus.cs",
"contract/AElf.Contracts.Consensus.AEDPoS/Types/Round_Generation.cs",
"contract/AElf.Contracts.Consensus.AEDPoS/Types/Round_GetLighterRound.cs",
"contract/AElf.Contracts.Consensus.AEDPoS/Types/Round_GetLogs.cs",
"contract/AElf.Contracts.Consensus.AEDPoS/Types/Round_ImpliedIrreversibleBlockHeight.cs",
"contract/AElf.Contracts.Consensus.AEDPoS/Types/Round_Recover.cs",
"contract/AElf.Contracts.Consensus.AEDPoS/Types/Round_Simplify.cs",
"contract/AElf.Contracts.CrossChain/CrossChainContract.cs",
"contract/AElf.Contracts.CrossChain/CrossChainContractState.cs",
"contract/AElf.Contracts.CrossChain/CrossChainContract_ACS1_TransactionFeeProvider.cs",
"contract/AElf.Contracts.CrossChain/CrossChainContract_Constants.cs",
"contract/AElf.Contracts.CrossChain/CrossChainContract_Helper.cs",
"contract/AElf.Contracts.CrossChain/CrossChainContract_View.cs",
"contract/AElf.Contracts.CrossChain/CrossChainReferenceState.cs",
"contract/AElf.Contracts.Economic/EconomicContract.cs",
"contract/AElf.Contracts.Economic/EconomicContractConstants.cs",
"contract/AElf.Contracts.Economic/EconomicContractState.cs",
"contract/AElf.Contracts.Economic/EconomicContract_ACS1_TransactionFeeProvider.cs",
"contract/AElf.Contracts.Election/ElectionContractConstants.cs",
"contract/AElf.Contracts.Election/ElectionContractReferenceState.cs",
"contract/AElf.Contracts.Election/ElectionContractState.cs",
"contract/AElf.Contracts.Election/ElectionContract_ACS1_TransactionFeeProvider.cs",
"contract/AElf.Contracts.Election/ElectionContract_Candidate.cs",
"contract/AElf.Contracts.Election/ElectionContract_Elector.cs",
"contract/AElf.Contracts.Election/ElectionContract_Maintainence.cs",
"contract/AElf.Contracts.Election/TimestampHelper.cs",
"contract/AElf.Contracts.Election/ViewMethods.cs",
"contract/AElf.Contracts.Genesis/BasicContractZero.cs",
"contract/AElf.Contracts.Genesis/BasicContractZeroContract_ACS1_TransactionFeeProvider.cs",
"contract/AElf.Contracts.Genesis/BasicContractZeroReferenceState.cs",
"contract/AElf.Contracts.Genesis/BasicContractZeroState.cs",
"contract/AElf.Contracts.Genesis/BasicContractZero_Constants.cs",
"contract/AElf.Contracts.Genesis/BasicContractZero_Helper.cs",
"contract/AElf.Contracts.MultiToken/TokenContractConstants.cs",
"contract/AElf.Contracts.MultiToken/TokenContractReferenceState.cs",
"contract/AElf.Contracts.MultiToken/TokenContractState.cs",
"contract/AElf.Contracts.MultiToken/TokenContractState_ChargeFee.cs",
"contract/AElf.Contracts.MultiToken/TokenContract_ACS1_MethodFeeProvider.cs",
"contract/AElf.Contracts.MultiToken/TokenContract_ACS2_StatePathsProvider.cs",
"contract/AElf.Contracts.MultiToken/TokenContract_Actions.cs",
"contract/AElf.Contracts.MultiToken/TokenContract_CacheFileds.cs",
"contract/AElf.Contracts.MultiToken/TokenContract_Delegation.cs",
"contract/AElf.Contracts.MultiToken/TokenContract_Fee_Calculate_Coefficient.cs",
"contract/AElf.Contracts.MultiToken/TokenContract_Fees.cs",
"contract/AElf.Contracts.MultiToken/TokenContract_Helper.cs",
"contract/AElf.Contracts.MultiToken/TokenContract_Method_Authorization.cs",
"contract/AElf.Contracts.MultiToken/TokenContract_NFTHelper.cs",
"contract/AElf.Contracts.MultiToken/TokenContract_NFT_Actions.cs",
"contract/AElf.Contracts.MultiToken/TokenContract_Views.cs",
"contract/AElf.Contracts.NFT/NFTContractConstants.cs",
"contract/AElf.Contracts.NFT/NFTContractReferenceState.cs",
"contract/AElf.Contracts.NFT/NFTContractState.cs",
"contract/AElf.Contracts.NFT/NFTContract_ACS1.cs",
"contract/AElf.Contracts.NFT/NFTContract_Create.cs",
"contract/AElf.Contracts.NFT/NFTContract_Helpers.cs",
"contract/AElf.Contracts.NFT/NFTContract_UseChain.cs",
"contract/AElf.Contracts.NFT/NFTContract_View.cs",
"contract/AElf.Contracts.Parliament/Parliament.cs",
"contract/AElf.Contracts.Parliament/ParliamentConstants.cs",
"contract/AElf.Contracts.Parliament/ParliamentContract_ACS1_TransactionFeeProvider.cs",
"contract/AElf.Contracts.Parliament/ParliamentState.cs",
"contract/AElf.Contracts.Parliament/Parliament_Constants.cs",
"contract/AElf.Contracts.Parliament/Parliament_Helper.cs",
"contract/AElf.Contracts.Profit/ContractsReferences.cs",
"contract/AElf.Contracts.Profit/Models/RemovedDetails.cs",
"contract/AElf.Contracts.Profit/ProfitContract.cs",
"contract/AElf.Contracts.Profit/ProfitContractConstants.cs",
"contract/AElf.Contracts.Profit/ProfitContractState.cs",
"contract/AElf.Contracts.Profit/ProfitContract_ACS1_TransactionFeeProvider.cs",
"contract/AElf.Contracts.Profit/ViewMethods.cs",
"contract/AElf.Contracts.Referendum/ProposerWhiteListExtensions.cs",
"contract/AElf.Contracts.Referendum/Referendum.cs",
"contract/AElf.Contracts.Referendum/ReferendumConstants.cs",
"contract/AElf.Contracts.Referendum/ReferendumContract_ACS1_TransactionFeeProvider.cs",
"contract/AElf.Contracts.Referendum/ReferendumState.cs",
"contract/AElf.Contracts.Referendum/Referendum_Helper.cs",
"contract/AElf.Contracts.TokenConverter/BancorHelper.cs",
"contract/AElf.Contracts.TokenConverter/InvalidValueException.cs",
"contract/AElf.Contracts.TokenConverter/TokenConvert_Views.cs",
"contract/AElf.Contracts.TokenConverter/TokenConverterContract.cs",
"contract/AElf.Contracts.TokenConverter/TokenConverterContractState.cs",
"contract/AElf.Contracts.TokenConverter/TokenConverterContract_ACS1_TransactionFeeProvider.cs",
"contract/AElf.Contracts.TokenHolder/ContractsReferences.cs",
"contract/AElf.Contracts.TokenHolder/TokenHolderContract.cs",
"contract/AElf.Contracts.TokenHolder/TokenHolderContractState.cs",
"contract/AElf.Contracts.TokenHolder/TokenHolderContract_ACS1_TransactionFeeProvider.cs",
"contract/AElf.Contracts.Treasury/ContractsReferences.cs",
"contract/AElf.Contracts.Treasury/TreasuryContract.cs",
"contract/AElf.Contracts.Treasury/TreasuryContractConstants.cs",
"contract/AElf.Contracts.Treasury/TreasuryContractState.cs",
"contract/AElf.Contracts.Treasury/TreasuryContract_ACS1_TransactionFeeProvider.cs",
"contract/AElf.Contracts.Vote/ContractsReferences.cs",
"contract/AElf.Contracts.Vote/ViewMethods.cs",
"contract/AElf.Contracts.Vote/VoteContract.cs",
"contract/AElf.Contracts.Vote/VoteContractConstants.cs",
"contract/AElf.Contracts.Vote/VoteContractState.cs",
"contract/AElf.Contracts.Vote/VoteContract_ACS1_TransactionFeeProvider.cs",
"contract/AElf.Contracts.Vote/VoteExtensions.cs"]

/-- `pat` occurs contiguously somewhere in `s`. -/
def ContainsSeg (pat s : List Char) : Prop :=
∃ pre post, s = pre ++ pat ++ post

/-- Boolean test: `s` starts with `pat`. -/
def startsWithSeg : List Char → List Char → Bool
| [], _ => true
| p :: ps, c :: cs => p == c && startsWithSeg ps cs
| _, [] => false

/-- Boolean test: `pat` occurs contiguously in `s`. -/
def hasSeg (pat : List Char) : List Char → Bool
| [] => pat.isEmpty
| c :: cs => startsWithSeg pat (c :: cs) || hasSeg pat cs

/-- The chunks `es` all occur contiguously in `s`, in the given order and
without overlap. -/
def EmbedsAll : List (List Char) → List Char → Prop
| [], _ => True
| e :: es, s => ∃ pre rest, s = pre ++ e ++ rest ∧ EmbedsAll es rest

/-- Python `repr` of a string containing no quote or backslash characters. -/
def pyStrRepr (e : String) : String := "\x27" ++ e ++ "\x27"

/-- The element part of Python's `repr` of a list of simple strings:
single-quoted elements separated by `", "`. -/
def pyListReprAux : List String → String
| [] => ""
| e :: rest => pyStrRepr e ++ (if rest.isEmpty then "" else ", ") ++ pyListReprAux rest

/-- Python `repr` (hence `str`, hence f-string rendering) of a list of simple
strings: `[` + comma-separated single-quoted elements + `]`.  The f-string
`{scope_files}` of questions.py line 499 renders exactly this. -/
def pyListRepr (l : List String) : String := "[" ++ pyListReprAux l ++ "]"

/-- `question_generator(target_file)` from questions.py lines 349-450: the
f-string template with `{target_file}` interpolated at its six occurrence
points. -/
def question_generator (target_file : String) : String :=
qgSeg0 ++ (target_file ++ (qgSeg1 ++ (target_file ++ (qgSeg2 ++ (target_file ++ (qgSeg3 ++ (target_file ++ (qgSeg4 ++ (target_file ++ (qgSeg5 ++ (target_file ++ qgSeg6)))))))))))

/-- `validation_format(report)` from questions.py lines 453-628: the f-string
template with `{report}` interpolated once and `{scope_files}` rendered as the
Python `str` of the list. -/
def validation_format (report : String) : String :=
vfSeg0 ++ (report ++ (vfSeg1 ++ (pyListRepr scope_files ++ vfSeg2)))

/-- `audit_format(security_question)` from questions.py lines 631-791: the
f-string template with `{security_question}` interpolated at its two
occurrence points. -/
def audit_format (security_question : String) : String :=
afSeg0 ++ (security_question ++ (afSeg1 ++ (security_question ++ afSeg2)))

/-- `scan_format(report)` from questions.py lines 794-944: the f-string
template with `{report}` interpolated once. -/
def scan_format (report : String) : String :=
sfSeg0 ++ (report ++ sfSeg1)

/-- All literal template segments of the four builders. -/
def templateSegs : List String :=
[qgSeg0, qgSeg1, qgSeg2, qgSeg3, qgSeg4, qgSeg5, qgSeg6, vfSeg0, vfSeg1, vfSeg2, afSeg0, afSeg1, afSeg2, sfSeg0, sfSeg1]

/-- A one-character control string (U+0001), used as a probe character that
occurs nowhere in any template segment. -/
def sohStr : String := String.mk [Char.ofNat 1]

lemma startsWithSeg_iff (pat : List Char) : ∀ s : List Char,
    startsWithSeg pat s = true ↔ ∃ post, s = pat ++ post := by
  induction pat with
  | nil => intro s; simp [startsWithSeg]
  | cons p ps ih =>
    intro s
    cases s with
    | nil => simp [startsWithSeg]
    | cons c cs =>
      simp only [startsWithSeg, Bool.and_eq_true, beq_iff_eq, ih, List.cons_append]
      constructor
      · rintro ⟨rfl, post, rfl⟩; exact ⟨post, rfl⟩
      · rintro ⟨post, h⟩
        injection h with h1 h2
        exact ⟨h1.symm, post, h2⟩

lemma hasSeg_iff (pat : List Char) : ∀ s : List Char,
    hasSeg pat s = true ↔ ContainsSeg pat s := by
  intro s
  induction s with
  | nil =>
    simp only [hasSeg, List.isEmpty_iff, ContainsSeg]
    constructor
    · rintro rfl; exact ⟨[], [], rfl⟩
    · rintro ⟨pre, post, h⟩
      rcases List.append_eq_nil.mp h.symm with ⟨h1, h2⟩
      exact (List.append_eq_nil.mp h1).2
  | cons c cs ih =>
    simp only [hasSeg, Bool.or_eq_true, startsWithSeg_iff, ih, ContainsSeg]
    constructor
    · rintro (⟨post, h⟩ | ⟨pre, post, h⟩)
      · exact ⟨[], post, by simpa using h⟩
      · exact ⟨c :: pre, post, by simp [h]⟩
    · rintro ⟨pre, post, h⟩
      cases pre with
      | nil => exact Or.inl ⟨post, by simpa using h⟩
      | cons x xs =>
        injection h with h1 h2
        exact Or.inr ⟨xs, post, h2⟩

lemma not_containsSeg_of_hasSeg_false {pat s : List Char}
    (h : hasSeg pat s = false) : ¬ ContainsSeg pat s := by
  intro hc
  rw [(hasSeg_iff pat s).mpr hc] at h
  cases h

lemma containsSeg_append_drop (pat a b : List Char) (k : Nat)
    (hk : k + pat.length ≤ a.length + 1) :
    ContainsSeg pat (a ++ b) → ContainsSeg pat a ∨ ContainsSeg pat (a.drop k ++ b) := by
  rintro ⟨pre, post, h⟩
  by_cases hpat : pat = []
  · subst hpat; exact Or.inl ⟨[], a, by simp⟩
  have hpatlen : 1 ≤ pat.length := List.length_pos.mpr hpat
  have hlen : a.length + b.length = pre.length + (pat.length + post.length) := by
    have := congrArg List.length h
    simpa [List.length_append] using this
  by_cases hc : pre.length + pat.length ≤ a.length
  · left
    refine ⟨pre, post.take (a.length - pre.length - pat.length), ?_⟩
    have h1 : (a ++ b).take a.length = a := List.take_left a b
    rw [h] at h1
    rw [List.append_assoc] at h1
    rw [List.take_append_eq_append_take, List.take_append_eq_append_take] at h1
    rw [List.take_of_length_le (by omega : pre.length ≤ a.length)] at h1
    rw [List.take_of_length_le (by omega : pat.length ≤ a.length - pre.length)] at h1
    rw [← h1]
    simp [List.append_assoc]
  · right
    refine ⟨pre.drop k, post, ?_⟩
    have h2 : (a ++ b).drop k = a.drop k ++ b := by
      rw [List.drop_append_eq_append_drop, show k - a.length = 0 by omega, List.drop_zero]
    rw [← h2, h, List.append_assoc, List.drop_append_eq_append_drop,
      show k - pre.length = 0 by omega, List.drop_zero]
    simp [List.append_assoc]

lemma containsSeg_id (s : List Char) : ContainsSeg s s := ⟨[], [], by simp⟩

lemma containsSeg_append_left (t : List Char) {pat s : List Char}
    (h : ContainsSeg pat s) : ContainsSeg pat (t ++ s) := by
  rcases h with ⟨pre, post, rfl⟩
  exact ⟨t ++ pre, post, by simp [List.append_assoc]⟩

lemma containsSeg_append_right (t : List Char) {pat s : List Char}
    (h : ContainsSeg pat s) : ContainsSeg pat (s ++ t) := by
  rcases h with ⟨pre, post, rfl⟩
  exact ⟨pre, post ++ t, by simp [List.append_assoc]⟩

lemma stepChunk {pat : List Char} (t c rest tn : List Char) (k : Nat)
    (hk : k + pat.length ≤ (t ++ c).length + 1)
    (h1 : hasSeg pat (t ++ c) = false)
    (h2 : (t ++ c).drop k = tn)
    (h3 : ¬ ContainsSeg pat (tn ++ rest)) :
    ¬ ContainsSeg pat (t ++ (c ++ rest)) := by
  rw [← List.append_assoc]
  intro h
  rcases containsSeg_append_drop pat (t ++ c) rest k hk h with h2' | h2'
  · exact not_containsSeg_of_hasSeg_false h1 h2'
  · rw [h2] at h2'
    exact h3 h2'

lemma embedsAll_append_left (t : List Char) {es : List (List Char)} {s : List Char}
    (h : EmbedsAll es s) : EmbedsAll es (t ++ s) := by
  cases es with
  | nil => trivial
  | cons e es =>
    rcases h with ⟨pre, rest, rfl, h2⟩
    exact ⟨t ++ pre, rest, by simp [List.append_assoc], h2⟩

lemma embedsAll_append_right (t : List Char) {es : List (List Char)} {s : List Char}
    (h : EmbedsAll es s) : EmbedsAll es (s ++ t) := by
  induction es generalizing s with
  | nil => trivial
  | cons e es ih =>
    rcases h with ⟨pre, rest, rfl, h2⟩
    exact ⟨pre, rest ++ t, by simp [List.append_assoc], ih h2⟩

lemma embedsAll_head {e : List Char} {es : List (List Char)} {s : List Char}
    (h : EmbedsAll (e :: es) s) : ContainsSeg e s := by
  rcases h with ⟨pre, rest, hs, _⟩
  exact ⟨pre, rest, hs⟩

lemma embedsAll_pyListReprAux : ∀ l : List String,
    EmbedsAll (l.map String.data) (pyListReprAux l).data := by
  intro l
  induction l with
  | nil => trivial
  | cons e rest ih =>
    refine ⟨"\x27".data,
      ("\x27" ++ (if rest.isEmpty then "" else ", ")).data ++ (pyListReprAux rest).data, ?_, ?_⟩
    · simp [pyListReprAux, pyStrRepr, String.data_append, List.append_assoc]
    · exact embedsAll_append_left _ ih

lemma embedsAll_pyListRepr (l : List String) :
    EmbedsAll (l.map String.data) (pyListRepr l).data := by
  have h := embedsAll_pyListReprAux l
  have hd : (pyListRepr l).data = "[".data ++ ((pyListReprAux l).data ++ "]".data) := by
    simp [pyListRepr, String.data_append]
  rw [hd]
  exact embedsAll_append_left _ (embedsAll_append_right _ h)

/-- `scope_files` is the 158-path block followed by the same block again. -/
lemma scope_files_eq_double : scope_files = sfHalf ++ sfHalf := by rfl

lemma sfHalf_length : sfHalf.length = 158 := by decide

lemma qgSeg0_marker_free :
    qgSeg0.data.count (Char.ofNat 123) = 0 ∧ qgSeg0.data.count (Char.ofNat 125) = 0 := by
  constructor <;> (simp only [qgSeg0, String.data_append, List.count_append]; decide)

lemma qgSeg1_marker_free :
    qgSeg1.data.count (Char.ofNat 123) = 0 ∧ qgSeg1.data.count (Char.ofNat 125) = 0 := by
  constructor <;> (simp only [qgSeg1, String.data_append, List.count_append]; decide)

lemma qgSeg2_marker_free :
    qgSeg2.data.count (Char.ofNat 123) = 0 ∧ qgSeg2.data.count (Char.ofNat 125) = 0 := by
  constructor <;> (simp only [qgSeg2, String.data_append, List.count_append]; decide)

lemma qgSeg3_marker_free :
    qgSeg3.data.count (Char.ofNat 123) = 0 ∧ qgSeg3.data.count (Char.ofNat 125) = 0 := by
  constructor <;> (simp only [qgSeg3, String.data_append, List.count_append]; decide)

lemma qgSeg4_marker_free :
    qgSeg4.data.count (Char.ofNat 123) = 0 ∧ qgSeg4.data.count (Char.ofNat 125) = 0 := by
  constructor <;> (simp only [qgSeg4, String.data_append, List.count_append]; decide)

lemma qgSeg5_marker_free :
    qgSeg5.data.count (Char.ofNat 123) = 0 ∧ qgSeg5.data.count (Char.ofNat 125) = 0 := by
  constructor <;> (simp only [qgSeg5, String.data_append, List.count_append]; decide)

lemma qgSeg6_marker_free :
    qgSeg6.data.count (Char.ofNat 123) = 0 ∧ qgSeg6.data.count (Char.ofNat 125) = 0 := by
  constructor <;> (simp only [qgSeg6, String.data_append, List.count_append]; decide)

lemma vfSeg0_marker_free :
    vfSeg0.data.count (Char.ofNat 123) = 0 ∧ vfSeg0.data.count (Char.ofNat 125) = 0 := by
  constructor <;> (simp only [vfSeg0, String.data_append, List.count_append]; decide)

lemma vfSeg1_marker_free :
    vfSeg1.data.count (Char.ofNat 123) = 0 ∧ vfSeg1.data.count (Char.ofNat 125) = 0 := by
  constructor <;> (simp only [vfSeg1, String.data_append, List.count_append]; decide)

lemma vfSeg2_marker_free :
    vfSeg2.data.count (Char.ofNat 123) = 0 ∧ vfSeg2.data.count (Char.ofNat 125) = 0 := by
  constructor <;> (simp only [vfSeg2, String.data_append, List.count_append]; decide)

lemma afSeg0_marker_free :
    afSeg0.data.count (Char.ofNat 123) = 0 ∧ afSeg0.data.count (Char.ofNat 125) = 0 := by
  constructor <;> (simp only [afSeg0, String.data_append, List.count_append]; decide)

lemma afSeg1_marker_free :
    afSeg1.data.count (Char.ofNat 123) = 0 ∧ afSeg1.data.count (Char.ofNat 125) = 0 := by
  constructor <;> (simp only [afSeg1, String.data_append, List.count_append]; decide)

lemma afSeg2_marker_free :
    afSeg2.data.count (Char.ofNat 123) = 0 ∧ afSeg2.data.count (Char.ofNat 125) = 0 := by
  constructor <;> (simp only [afSeg2, String.data_append, List.count_append]; decide)

lemma sfSeg0_marker_free :
    sfSeg0.data.count (Char.ofNat 123) = 0 ∧ sfSeg0.data.count (Char.ofNat 125) = 0 := by
  constructor <;> (simp only [sfSeg0, String.data_append, List.count_append]; decide)

lemma sfSeg1_marker_free :
    sfSeg1.data.count (Char.ofNat 123) = 0 ∧ sfSeg1.data.count (Char.ofNat 125) = 0 := by
  constructor <;> (simp only [sfSeg1, String.data_append, List.count_append]; decide)

lemma afSeg0_soh_free : afSeg0.data.count (Char.ofNat 1) = 0 := by
  simp only [afSeg0, String.data_append, List.count_append]; decide

lemma afSeg1_soh_free : afSeg1.data.count (Char.ofNat 1) = 0 := by
  simp only [afSeg1, String.data_append, List.count_append]; decide

lemma afSeg2_soh_free : afSeg2.data.count (Char.ofNat 1) = 0 := by
  simp only [afSeg2, String.data_append, List.count_append]; decide

/-- The first Scope File List entry does not occur in the output of
`question_generator`: checked chunk by chunk with a sliding window that
covers chunk-boundary straddles. -/
lemma qg_no_scope_entry :
    ¬ ContainsSeg "contract/AElf.Contracts.Association/Association.cs".data
      (question_generator "contract/AElf.Contracts.MultiToken/TokenContract.cs").data := by
  simp only [question_generator, qgSeg0, qgSeg1, qgSeg2, qgSeg3, qgSeg4, qgSeg5, qgSeg6, String.data_append, List.append_assoc]
  refine stepChunk _ _ _ "ILE**: Focus question generation EXCLUSIVELY on \x60".data 1206 (by decide) (by decide) (by decide) ?_
  refine stepChunk _ _ _ "ntract/AElf.Contracts.MultiToken/TokenContract.cs".data 51 (by decide) (by decide) (by decide) ?_
  refine stepChunk _ _ _ "nContract.cs\x60\n\nQuestions must be generated from \x60".data 37 (by decide) (by decide) (by decide) ?_
  refine stepChunk _ _ _ "ntract/AElf.Contracts.MultiToken/TokenContract.cs".data 51 (by decide) (by decide) (by decide) ?_
  refine stepChunk _ _ _ "    \"contract/AElf.Contracts.Profit/*\",\n    \"cont".data 700 (by decide) (by decide) (by decide) ?_
  refine stepChunk _ _ _ "height calculations, secret-sharing flows, punish".data 700 (by decide) (by decide) (by decide) ?_
  refine stepChunk _ _ _ "erability Categories**\n\n- Authorization/governanc".data 700 (by decide) (by decide) (by decide) ?_
  refine stepChunk _ _ _ "Format Template**\n\nEach question MUST follow this".data 700 (by decide) (by decide) (by decide) ?_
  refine stepChunk _ _ _ "ist format:\n\n\x60\x60\x60python\nquestions \x3d [\n    \"[File: ".data 58 (by decide) (by decide) (by decide) ?_
  refine stepChunk _ _ _ "ntract/AElf.Contracts.MultiToken/TokenContract.cs".data 51 (by decide) (by decide) (by decide) ?_
  refine stepChunk _ _ _ "s**\n\nGenerate questions focusing EXCLUSIVELY on \x60".data 242 (by decide) (by decide) (by decide) ?_
  refine stepChunk _ _ _ "ntract/AElf.Contracts.MultiToken/TokenContract.cs".data 51 (by decide) (by decide) (by decide) ?_
  refine stepChunk _ _ _ "eference real functions/methods/logic blocks in \x60".data 60 (by decide) (by decide) (by decide) ?_
  refine stepChunk _ _ _ "ntract/AElf.Contracts.MultiToken/TokenContract.cs".data 51 (by decide) (by decide) (by decide) ?_
  refine stepChunk _ _ _ "ons as possible\n\nBegin generating questions for \x60".data 606 (by decide) (by decide) (by decide) ?_
  refine stepChunk _ _ _ "ntract/AElf.Contracts.MultiToken/TokenContract.cs".data 51 (by decide) (by decide) (by decide) ?_
  exact not_containsSeg_of_hasSeg_false (by decide)

/-- Claim C1: for every integer `run` and every integer `max ≥ 1`,
`get_cyclic_index run max` lies in the closed interval `[1, max]`. -/
theorem claim_C1 (run max : Int) (h : 1 ≤ max) :
    1 ≤ get_cyclic_index run max ∧ get_cyclic_index run max ≤ max := by
  unfold get_cyclic_index
  have h0 : 0 ≤ (run - 1) % max := Int.emod_nonneg _ (by omega)
  have h1 : (run - 1) % max < max := Int.emod_lt_of_pos _ (by omega)
  omega

/-- Witness for C1 at `run = -7`, `max = 30`. -/
theorem claim_C1_witness :
    1 ≤ (30 : Int) ∧
      (1 ≤ get_cyclic_index (-7) 30 ∧ get_cyclic_index (-7) 30 ≤ 30) :=
  ⟨by decide, claim_C1 (-7) 30 (by decide)⟩

/-- Claim C2: `get_cyclic_index run max` equals `((run - 1) mod max) + 1` with
the mathematical non-negative-remainder modulo: the value is `r + 1` where `r`
is the unique remainder with `0 ≤ r < max` and `max ∣ (run - 1 - r)`; in
particular the four quoted values at `max = 30` hold. -/
theorem claim_C2 :
    (get_cyclic_index 0 30 = 30 ∧ get_cyclic_index 1 30 = 1 ∧
      get_cyclic_index 30 30 = 30 ∧ get_cyclic_index 31 30 = 1) ∧
    ∀ run max : Int, 0 < max →
      0 ≤ (run - 1) % max ∧ (run - 1) % max < max ∧
        max ∣ (run - 1 - (run - 1) % max) ∧
        get_cyclic_index run max = (run - 1) % max + 1 := by
  refine ⟨by decide, ?_⟩
  intro run max h
  refine ⟨Int.emod_nonneg _ (by omega), Int.emod_lt_of_pos _ h,
    ⟨(run - 1) / max, ?_⟩, rfl⟩
  have hd := Int.emod_add_ediv (run - 1) max
  linarith

/-- Witness for C2 at `run = -5`, `max = 7`. -/
theorem claim_C2_witness :
    0 < (7 : Int) ∧
      (0 ≤ ((-5 : Int) - 1) % 7 ∧ ((-5 : Int) - 1) % 7 < 7 ∧
        (7 : Int) ∣ ((-5 : Int) - 1 - ((-5 : Int) - 1) % 7) ∧
        get_cyclic_index (-5) 7 = ((-5 : Int) - 1) % 7 + 1) :=
  ⟨by decide, claim_C2.2 (-5) 7 (by decide)⟩

/-- Claim C3: with run-counter string `"0"` the target-URL resolver returns
the canonical fixed URL (which contains no digit at all, hence no numeric
suffix); with `"31"` it returns the rotating-resource URL, which contains the
zero-padded index `"001"`. -/
theorem claim_C3 :
    resolveBaseUrl "0" = some "https://deepwiki.com/AElfProject/AElf" ∧
    "https://deepwiki.com/AElfProject/AElf".data.all (fun c => !c.isDigit) = true ∧
    resolveBaseUrl "31" = some "https://deepwiki.com/grass-dev-pa/aelf-001" ∧
    ContainsSeg "001".data "https://deepwiki.com/grass-dev-pa/aelf-001".data :=
  ⟨by decide, by decide, by decide, (hasSeg_iff _ _).mp (by decide)⟩

/-- Claim C4 (evaluation at the failing input): on the non-integer counter
string `"abc"` the `int()` parse fails, so the `BASE_URL` computation aborts
with a raised `ValueError` (modelled as `none`) instead of returning any URL;
the source has no handler and no `InvalidInput` error taxonomy. -/
theorem claim_C4_eval :
    pythonInt "abc" = none ∧ resolveBaseUrl "abc" = none := by
  exact ⟨by decide, by decide⟩

/-- Counterexample to claim C5: the Scope File List entry
`contract/AElf.Contracts.Association/Association.cs` is in `scope_files`, yet
the output of `question_generator` (here at the source docstring's own example
input) does not embed the scope file list: that entry never occurs in the
output, so the required in-order embedding of all entries fails. -/
theorem claim_C5_counterexample :
    "contract/AElf.Contracts.Association/Association.cs" ∈ scope_files ∧
    ¬ EmbedsAll (scope_files.map String.data)
      (question_generator "contract/AElf.Contracts.MultiToken/TokenContract.cs").data := by
  refine ⟨by decide, fun h => qg_no_scope_entry ?_⟩
  have e : scope_files =
      "contract/AElf.Contracts.Association/Association.cs" :: scope_files.tail := by rfl
  rw [e, List.map_cons] at h
  exact embedsAll_head h

/-- Claim C5 as amended: only `validation_format` embeds the Scope File List;
for every input string its output renders every entry of `scope_files` as
literal (single-quoted) text, all entries in the list's relative order.
(`question_generator` does not embed the list, per the counterexample.) -/
theorem claim_C5_amended (report : String) :
    EmbedsAll (scope_files.map String.data) (validation_format report).data := by
  simp only [validation_format, String.data_append]
  exact embedsAll_append_left _ (embedsAll_append_left _ (embedsAll_append_left _
    (embedsAll_append_right _ (embedsAll_pyListRepr scope_files))))

/-- Claim C6: `scope_files` consists of the same 158-entry sequence twice (its
first half equals its second half), so every path in it occurs at least
twice. -/
theorem claim_C6 :
    scope_files.take 158 = scope_files.drop 158 ∧ scope_files.length = 316 ∧
    ∀ x ∈ scope_files, 2 ≤ scope_files.count x := by
  have hlen := sfHalf_length
  refine ⟨?_, ?_, ?_⟩
  · rw [scope_files_eq_double, ← hlen, List.take_left, List.drop_left]
  · rw [scope_files_eq_double, List.length_append, hlen]
  · intro x hx
    rw [scope_files_eq_double] at hx ⊢
    have hm : x ∈ sfHalf := by
      rcases List.mem_append.mp hx with h | h <;> exact h
    have hc : 0 < sfHalf.count x := List.count_pos_iff.mpr hm
    rw [List.count_append]
    omega

/-- Witness for C6 at the first scope entry. -/
theorem claim_C6_witness :
    2 ≤ scope_files.count "contract/AElf.Contracts.Association/Association.cs" :=
  claim_C6.2.2 _ (by decide)

/-- Claim C7: each of the four builders is deterministic — identical input
strings give identical output strings.  (Each is a total function of its
argument in this embedding, faithfully to the source, whose builders read no
state and perform no effects.) -/
theorem claim_C7 (s t : String) (h : s = t) :
    question_generator s = question_generator t ∧
    validation_format s = validation_format t ∧
    audit_format s = audit_format t ∧
    scan_format s = scan_format t := by
  subst h
  exact ⟨rfl, rfl, rfl, rfl⟩

/-- Witness for C7 at a concrete input. -/
theorem claim_C7_witness :
    question_generator "a" = question_generator "a" ∧
    validation_format "a" = validation_format "a" ∧
    audit_format "a" = audit_format "a" ∧
    scan_format "a" = scan_format "a" :=
  claim_C7 "a" "a" rfl

/-- Claim C8: every builder's output contains its input verbatim (at a
substitution point), and no template segment contains a `{` or `}` character,
so no unsubstituted `{...}` placeholder marker of a template can survive into
any output. -/
theorem claim_C8 (s : String) :
    ContainsSeg s.data (question_generator s).data ∧
    ContainsSeg s.data (validation_format s).data ∧
    ContainsSeg s.data (audit_format s).data ∧
    ContainsSeg s.data (scan_format s).data ∧
    ∀ t ∈ templateSegs,
      t.data.count (Char.ofNat 123) = 0 ∧ t.data.count (Char.ofNat 125) = 0 := by
  refine ⟨?_, ?_, ?_, ?_, ?_⟩
  · simp only [question_generator, String.data_append]
    exact containsSeg_append_left _ (containsSeg_append_right _ (containsSeg_id _))
  · simp only [validation_format, String.data_append]
    exact containsSeg_append_left _ (containsSeg_append_right _ (containsSeg_id _))
  · simp only [audit_format, String.data_append]
    exact containsSeg_append_left _ (containsSeg_append_right _ (containsSeg_id _))
  · simp only [scan_format, String.data_append]
    exact containsSeg_append_left _ (containsSeg_append_right _ (containsSeg_id _))
  · intro t ht
    simp only [templateSegs, List.mem_cons, List.not_mem_nil, or_false] at ht
    rcases ht with rfl | rfl | rfl | rfl | rfl | rfl | rfl | rfl | rfl | rfl | rfl | rfl | rfl | rfl | rfl
    exacts [qgSeg0_marker_free, qgSeg1_marker_free, qgSeg2_marker_free,
      qgSeg3_marker_free, qgSeg4_marker_free, qgSeg5_marker_free, qgSeg6_marker_free,
      vfSeg0_marker_free, vfSeg1_marker_free, vfSeg2_marker_free,
      afSeg0_marker_free, afSeg1_marker_free, afSeg2_marker_free,
      sfSeg0_marker_free, sfSeg1_marker_free]

/-- Witness for C8 at input `"X"` and segment `qgSeg0`. -/
theorem claim_C8_witness :
    ContainsSeg "X".data (question_generator "X").data ∧
    qgSeg0.data.count (Char.ofNat 123) = 0 :=
  ⟨(claim_C8 "X").1, ((claim_C8 "X").2.2.2.2 qgSeg0 (by simp [templateSegs])).1⟩

/-- Claim C9: for every input, `audit_format` is the fixed
investigation-instruction template with the security question embedded at
exactly two places: structurally the output is the three static segments with
the question twice in between, and probing with a character that occurs in no
segment counts exactly two embeddings. -/
theorem claim_C9 :
    (∀ q : String,
      audit_format q = afSeg0 ++ (q ++ (afSeg1 ++ (q ++ afSeg2)))) ∧
    (audit_format sohStr).data.count (Char.ofNat 1) = 2 := by
  refine ⟨fun _ => rfl, ?_⟩
  have e : (audit_format sohStr).data =
      afSeg0.data ++ (sohStr.data ++ (afSeg1.data ++ (sohStr.data ++ afSeg2.data))) := by
    simp only [audit_format, String.data_append]
  rw [e, List.count_append, List.count_append, List.count_append, List.count_append,
    afSeg0_soh_free, afSeg1_soh_free, afSeg2_soh_free,
    show sohStr.data.count (Char.ofNat 1) = 1 by decide]

/-- Claim C10: the canonical branch is selected by string equality with
`"0"`: the strings `"00"`, `"+0"` and `"-0"` all parse to the integer `0` but
are routed to the rotating-resource URL with suffix `"030"`, not to the
canonical fixed URL. -/
theorem claim_C10 :
    pythonInt "00" = some 0 ∧ pythonInt "+0" = some 0 ∧ pythonInt "-0" = some 0 ∧
    resolveBaseUrl "00" = some "https://deepwiki.com/grass-dev-pa/aelf-030" ∧
    resolveBaseUrl "+0" = some "https://deepwiki.com/grass-dev-pa/aelf-030" ∧
    resolveBaseUrl "-0" = some "https://deepwiki.com/grass-dev-pa/aelf-030" ∧
    ContainsSeg "030".data "https://deepwiki.com/grass-dev-pa/aelf-030".data ∧
    resolveBaseUrl "00" ≠ resolveBaseUrl "0" :=
  ⟨by decide, by decide, by decide, by decide, by decide, by decide,
    (hasSeg_iff _ _).mp (by decide), by decide⟩

end Questions
